import Mathlib

/-!
# chrome_service: option translation, render sessions and HTTP handlers

A shallow embedding of `main.go`.  The rendering engine (chromedp / cdproto), the
JSON decoder and the clock are outside the repository; they appear here as
parameters (`Engine`, the decoded request, the platform result of an
unrepresentable float conversion).  Everything the repository itself does with
their answers is translated line by line.
-/

namespace ChromeService

/-! ## Definitions -/

/-- A Go `float64`: a finite value `(-1)^neg * mant * 2^exp` (this covers signed
zeros, subnormals and normals), an infinity, or a NaN. -/
inductive Float64 where
  | finite (neg : Bool) (mant : Nat) (exp : Int)
  | inf (neg : Bool)
  | nan
  deriving DecidableEq, Repr

/-- The rational number `(-1)^neg * mant * 2^exp`. -/
def finiteValue (neg : Bool) (mant : Nat) (exp : Int) : ℚ :=
  (if neg then -1 else 1) * (mant : ℚ) * (2 : ℚ) ^ exp

/-- The rational number a finite `float64` denotes (`none` for NaN and infinities). -/
def Float64.toRat? : Float64 → Option ℚ
  | .finite neg mant exp => some (finiteValue neg mant exp)
  | .inf _ => none
  | .nan => none

/-- The dynamic content of a Go `interface{}` as `encoding/json` produces it:
`nil`, `bool`, `float64`, `string`, `[]interface{}` or `map[string]interface{}`. -/
inductive Dyn where
  | null
  | bool (b : Bool)
  | num (f : Float64)
  | str (s : String)
  | arr (items : List Dyn)
  | obj (fields : List (String × Dyn))

/-- A non-nil `map[string]interface{}`, as an association list (first binding of a key wins). -/
abbrev GoMap := List (String × Dyn)

/-- The `options` argument: `none` is the nil map. -/
abbrev OptionsMap := Option GoMap

/-- Go map indexing `m[k]`: the bound value, or the zero value (nil interface) when
the key is absent. -/
def GoMap.index (m : GoMap) (k : String) : Dyn :=
  match m.lookup k with
  | some v => v
  | none => Dyn.null

/-- Go `delete(m, k)`. -/
def GoMap.delete (m : GoMap) (k : String) : GoMap :=
  m.filter (fun p => !(p.1 == k))

/-- Whether key `k` is bound in the options (never in the nil map): `some v` when it is. -/
def OptionsMap.get? (o : OptionsMap) (k : String) : Option Dyn :=
  match o with
  | none => none
  | some m => m.lookup k

/-- The comma-ok type assertion `v.(bool)`. -/
def Dyn.asBool : Dyn → Option Bool
  | .bool b => some b
  | _ => none

/-- The comma-ok type assertion `v.(float64)`. -/
def Dyn.asFloat64 : Dyn → Option Float64
  | .num f => some f
  | _ => none

/-- The comma-ok type assertion `v.(string)`. -/
def Dyn.asString : Dyn → Option String
  | .str s => some s
  | _ => none

/-- The fields of cdproto's `page.PrintToPDFParams` that `htmlToPDF` can set. -/
structure PrintToPDFParams where
  landscape : Bool
  displayHeaderFooter : Bool
  printBackground : Bool
  scale : Float64
  paperWidth : Float64
  paperHeight : Float64
  marginTop : Float64
  marginBottom : Float64
  marginLeft : Float64
  marginRight : Float64
  pageRanges : String
  deriving DecidableEq, Repr

/-- The cdproto setter `WithLandscape`. -/
def PrintToPDFParams.WithLandscape (p : PrintToPDFParams) (landscape : Bool) : PrintToPDFParams :=
  { p with landscape := landscape }

/-- The cdproto setter `WithDisplayHeaderFooter`. -/
def PrintToPDFParams.WithDisplayHeaderFooter (p : PrintToPDFParams) (displayHeaderFooter : Bool) : PrintToPDFParams :=
  { p with displayHeaderFooter := displayHeaderFooter }

/-- The cdproto setter `WithPrintBackground`. -/
def PrintToPDFParams.WithPrintBackground (p : PrintToPDFParams) (printBackground : Bool) : PrintToPDFParams :=
  { p with printBackground := printBackground }

/-- The cdproto setter `WithScale`. -/
def PrintToPDFParams.WithScale (p : PrintToPDFParams) (scale : Float64) : PrintToPDFParams :=
  { p with scale := scale }

/-- The cdproto setter `WithPaperWidth`. -/
def PrintToPDFParams.WithPaperWidth (p : PrintToPDFParams) (paperWidth : Float64) : PrintToPDFParams :=
  { p with paperWidth := paperWidth }

/-- The cdproto setter `WithPaperHeight`. -/
def PrintToPDFParams.WithPaperHeight (p : PrintToPDFParams) (paperHeight : Float64) : PrintToPDFParams :=
  { p with paperHeight := paperHeight }

/-- The cdproto setter `WithMarginTop`. -/
def PrintToPDFParams.WithMarginTop (p : PrintToPDFParams) (marginTop : Float64) : PrintToPDFParams :=
  { p with marginTop := marginTop }

/-- The cdproto setter `WithMarginBottom`. -/
def PrintToPDFParams.WithMarginBottom (p : PrintToPDFParams) (marginBottom : Float64) : PrintToPDFParams :=
  { p with marginBottom := marginBottom }

/-- The cdproto setter `WithMarginLeft`. -/
def PrintToPDFParams.WithMarginLeft (p : PrintToPDFParams) (marginLeft : Float64) : PrintToPDFParams :=
  { p with marginLeft := marginLeft }

/-- The cdproto setter `WithMarginRight`. -/
def PrintToPDFParams.WithMarginRight (p : PrintToPDFParams) (marginRight : Float64) : PrintToPDFParams :=
  { p with marginRight := marginRight }

/-- The cdproto setter `WithPageRanges`. -/
def PrintToPDFParams.WithPageRanges (p : PrintToPDFParams) (pageRanges : String) : PrintToPDFParams :=
  { p with pageRanges := pageRanges }

/-- The statement `if x, ok := options[k].(bool); ok { p = p.WithX(x) }`. -/
def setIfBool (m : GoMap) (k : String) (set : PrintToPDFParams → Bool → PrintToPDFParams)
    (p : PrintToPDFParams) : PrintToPDFParams :=
  match (m.index k).asBool with
  | some b => set p b
  | none => p

/-- The statement `if x, ok := options[k].(float64); ok { p = p.WithX(x) }`. -/
def setIfFloat64 (m : GoMap) (k : String)
    (set : PrintToPDFParams → Float64 → PrintToPDFParams)
    (p : PrintToPDFParams) : PrintToPDFParams :=
  match (m.index k).asFloat64 with
  | some f => set p f
  | none => p

/-- The statement `if x, ok := options[k].(string); ok { p = p.WithX(x) }`. -/
def setIfString (m : GoMap) (k : String)
    (set : PrintToPDFParams → String → PrintToPDFParams)
    (p : PrintToPDFParams) : PrintToPDFParams :=
  match (m.index k).asString with
  | some s => set p s
  | none => p

/-- The "Build print options" block of `htmlToPDF`.  `dflt` is the value of
`page.PrintToPDF()`. -/
def buildPrintParams (dflt : PrintToPDFParams) (options : OptionsMap) : PrintToPDFParams :=
  let printParams := dflt
  match options with
  | none => printParams
  | some m =>
    let printParams := setIfBool m "landscape" PrintToPDFParams.WithLandscape printParams
    let printParams := setIfBool m "display_header_footer" PrintToPDFParams.WithDisplayHeaderFooter printParams
    let printParams := setIfBool m "print_background" PrintToPDFParams.WithPrintBackground printParams
    let printParams := setIfFloat64 m "scale" PrintToPDFParams.WithScale printParams
    let printParams := setIfFloat64 m "paper_width" PrintToPDFParams.WithPaperWidth printParams
    let printParams := setIfFloat64 m "paper_height" PrintToPDFParams.WithPaperHeight printParams
    let printParams := setIfFloat64 m "margin_top" PrintToPDFParams.WithMarginTop printParams
    let printParams := setIfFloat64 m "margin_bottom" PrintToPDFParams.WithMarginBottom printParams
    let printParams := setIfFloat64 m "margin_left" PrintToPDFParams.WithMarginLeft printParams
    let printParams := setIfFloat64 m "margin_right" PrintToPDFParams.WithMarginRight printParams
    let printParams := setIfString m "page_ranges" PrintToPDFParams.WithPageRanges printParams
    printParams

/-- The magnitude `mant * 2^exp` with its fractional part discarded. -/
def truncMagnitude (mant : Nat) (exp : Int) : Nat :=
  match exp with
  | Int.ofNat k => mant * 2 ^ k
  | Int.negSucc k => mant / 2 ^ (k + 1)

/-- Reduction of an integer into the `int64` range `[-2^63, 2^63)`. -/
def wrapInt64 (n : Int) : Int :=
  (n + 2 ^ 63) % 2 ^ 64 - 2 ^ 63

/-- The Go conversion `int64(w)` of a `float64`.  The language fixes it when the
truncated value is representable: the fraction is discarded.  For every other
operand (NaN, infinities, magnitude of at least `2^63`) the conversion still
succeeds with a result the language leaves to the platform; `indefinite` is that
platform choice, reduced into the `int64` range. -/
def int64OfFloat64 (indefinite : Float64 → Int) (w : Float64) : Int :=
  match w with
  | .finite neg mant exp =>
    let t : Int := if neg then -(truncMagnitude mant exp : Int) else (truncMagnitude mant exp : Int)
    if -(2 : Int) ^ 63 ≤ t ∧ t < (2 : Int) ^ 63 then t else wrapInt64 (indefinite w)
  | .inf _ => wrapInt64 (indefinite w)
  | .nan => wrapInt64 (indefinite w)

/-- The three locals `width`, `height`, `fullPage` of `htmlToScreenshot`. -/
structure ScreenshotConfig where
  width : Int
  height : Int
  fullPage : Bool
  deriving DecidableEq, Repr

/-- The "Default viewport" block of `htmlToScreenshot`. -/
def screenshotOptions (indefinite : Float64 → Int) (options : OptionsMap) : ScreenshotConfig :=
  let width : Int := 1280
  let height : Int := 720
  let fullPage := false
  match options with
  | none => { width := width, height := height, fullPage := fullPage }
  | some m =>
    let width := match (m.index "width").asFloat64 with
      | some w => int64OfFloat64 indefinite w
      | none => width
    let height := match (m.index "height").asFloat64 with
      | some h => int64OfFloat64 indefinite h
      | none => height
    let fullPage := match (m.index "full_page").asBool with
      | some fp => fp
      | none => fullPage
    { width := width, height := height, fullPage := fullPage }

/-- A Go `error` value: a plain error with a message, or the wrapping error that
`fmt.Errorf` builds for the `%w` verb. -/
inductive GoError where
  | plain (msg : String)
  | wrap (msg : String) (inner : GoError)
  deriving DecidableEq, Repr

/-- The method `Error()`. -/
def GoError.message : GoError → String
  | .plain msg => msg
  | .wrap msg _ => msg

/-- The method `Unwrap()` (`none` when the error wraps nothing). -/
def GoError.unwrap : GoError → Option GoError
  | .plain _ => none
  | .wrap _ inner => some inner

/-- The call `fmt.Errorf(context + "%w", err)`: the message is the context followed by
`err.Error()`, and the result wraps `err`. -/
def errorfW (context : String) (err : GoError) : GoError :=
  GoError.wrap (context ++ err.message) err

/-- A `[]byte`; the nil slice is the empty list. -/
abbrev Bytes := List UInt8

/-- The conversion `[]byte(s)` of a string: its UTF-8 bytes. -/
def bytesOfString (s : String) : Bytes :=
  s.toUTF8.data.toList

/-- An engine request issued through chromedp, with the arguments it is sent. -/
inductive Op where
  | start
  | emulateViewport (width height : Int)
  | navigate (url : String)
  | getFrameTree
  | setDocumentContent (frameID html : String)
  | printToPDF (params : PrintToPDFParams)
  | captureScreenshot
  | fullScreenshot (quality : Int)
  deriving DecidableEq, Repr

/-- What happens to sessions, in order. -/
inductive Event where
  | created (session : Nat)
  | deadlineSet (session : Nat) (seconds : Nat)
  | ran (session : Nat) (op : Op)
  | timeoutCancelled (session : Nat)
  | released (session : Nat)
  deriving DecidableEq, Repr

/-- The rendering engine behind chromedp, with a state of its own.  Every request
may answer with an error (a protocol error, a refused connection, or
`context deadline exceeded` once the deadline of the session has passed). -/
structure Engine (σ : Type) where
  start : σ → Option GoError × σ
  emulateViewport : Int → Int → σ → Option GoError × σ
  navigate : String → σ → Option GoError × σ
  getFrameTree : σ → Except GoError String × σ
  setDocumentContent : String → String → σ → Option GoError × σ
  printToPDF : PrintToPDFParams → σ → Except GoError Bytes × σ
  captureScreenshot : σ → Except GoError Bytes × σ
  fullScreenshot : Int → σ → Except GoError Bytes × σ

/-- The process state around a call: the engine, the next fresh session number,
and the record of session events so far. -/
structure World (σ : Type) where
  eng : σ
  next : Nat
  log : List Event

/-- A `context.Context` carrying a chromedp session, and its timeout if one is set. -/
structure Ctx where
  session : Nat
  timeout : Option Nat
  deriving DecidableEq, Repr

/-- A `context.CancelFunc`. -/
abbrev CancelFunc (σ : Type) := World σ → World σ

/-- Appends one event to the record. -/
def World.emit {σ : Type} (w : World σ) (e : Event) : World σ :=
  { w with log := w.log ++ [e] }

/-- The call `chromedp.NewContext(context.Background())`: a fresh session and the function
that releases it. -/
def newContext {σ : Type} (w : World σ) : Ctx × CancelFunc σ × World σ :=
  let s := w.next
  ({ session := s, timeout := none },
   (fun w1 => w1.emit (Event.released s)),
   { (w.emit (Event.created s)) with next := s + 1 })

/-- The call `context.WithTimeout(ctx, seconds)`: the same session under a deadline, and the
function that cancels the timeout context. -/
def withTimeout {σ : Type} (ctx : Ctx) (seconds : Nat) (w : World σ) :
    Ctx × CancelFunc σ × World σ :=
  ({ ctx with timeout := some seconds },
   (fun w1 => w1.emit (Event.timeoutCancelled ctx.session)),
   w.emit (Event.deadlineSet ctx.session seconds))

/-- Runs the deferred calls of a function at its return, last deferred first
(`defers` holds the most recent `defer` at its head). -/
def runDefers {σ : Type} (defers : List (CancelFunc σ)) (w : World σ) : World σ :=
  match defers with
  | [] => w
  | f :: rest => runDefers rest (f w)

/-- Sends one request of the session of `ctx` to the engine and records it. -/
def request {σ α : Type} (ctx : Ctx) (op : Op) (call : σ → α × σ) (w : World σ) :
    α × World σ :=
  let r := call w.eng
  (r.1, { (w.emit (Event.ran ctx.session op)) with eng := r.2 })

/-- A `chromedp.Action` of this program: it runs against the world and the byte
buffer its closure captures (`pdfBuffer` or `screenshotBuffer`). -/
abbrev Action (σ : Type) := Ctx → World σ × Bytes → Option GoError × (World σ × Bytes)

/-- The method `Tasks.Do`: the actions in order, stopping at the first error. -/
def runTasks {σ : Type} (ctx : Ctx) (actions : List (Action σ)) (st : World σ × Bytes) :
    Option GoError × (World σ × Bytes) :=
  match actions with
  | [] => (none, st)
  | a :: rest =>
    match a ctx st with
    | (some err, st1) => (some err, st1)
    | (none, st1) => runTasks ctx rest st1

/-- The call `chromedp.Run(ctx, actions...)`: allocates the browser and target of the session,
then runs the actions. -/
def chromedpRun {σ : Type} (eng : Engine σ) (ctx : Ctx) (actions : List (Action σ))
    (st : World σ × Bytes) : Option GoError × (World σ × Bytes) :=
  match request ctx Op.start eng.start st.1 with
  | (some err, w) => (some err, (w, st.2))
  | (none, w) => runTasks ctx actions (w, st.2)

/-- The action `chromedp.Navigate(url)`. -/
def navigate {σ : Type} (eng : Engine σ) (url : String) : Action σ :=
  fun ctx st =>
    let r := request ctx (Op.navigate url) (eng.navigate url) st.1
    (r.1, (r.2, st.2))

/-- The action `chromedp.EmulateViewport(width, height)`. -/
def emulateViewport {σ : Type} (eng : Engine σ) (width height : Int) : Action σ :=
  fun ctx st =>
    let r := request ctx (Op.emulateViewport width height) (eng.emulateViewport width height) st.1
    (r.1, (r.2, st.2))

/-- The content-injection `ActionFunc` of both renderers: `page.GetFrameTree()`, then
`page.SetDocumentContent(frameTree.Frame.ID, html)`. -/
def setContent {σ : Type} (eng : Engine σ) (html : String) : Action σ :=
  fun ctx st =>
    match request ctx Op.getFrameTree eng.getFrameTree st.1 with
    | (Except.error err, w) => (some err, (w, st.2))
    | (Except.ok frameID, w) =>
      let r := request ctx (Op.setDocumentContent frameID html)
        (eng.setDocumentContent frameID html) w
      (r.1, (r.2, st.2))

/-- The `ActionFunc` of `htmlToPDF` that runs `printParams.Do(ctx)` and assigns
`pdfBuffer` (the stream handle is dropped). -/
def printAction {σ : Type} (eng : Engine σ) (printParams : PrintToPDFParams) : Action σ :=
  fun ctx st =>
    match request ctx (Op.printToPDF printParams) (eng.printToPDF printParams) st.1 with
    | (Except.error err, w) => (some err, (w, []))
    | (Except.ok buf, w) => (none, (w, buf))

/-- The action `chromedp.CaptureScreenshot(&screenshotBuffer)`. -/
def captureScreenshot {σ : Type} (eng : Engine σ) : Action σ :=
  fun ctx st =>
    match request ctx Op.captureScreenshot eng.captureScreenshot st.1 with
    | (Except.error err, w) => (some err, (w, st.2))
    | (Except.ok buf, w) => (none, (w, buf))

/-- The action `chromedp.FullScreenshot(&screenshotBuffer, quality)`. -/
def fullScreenshot {σ : Type} (eng : Engine σ) (quality : Int) : Action σ :=
  fun ctx st =>
    match request ctx (Op.fullScreenshot quality) (eng.fullScreenshot quality) st.1 with
    | (Except.error err, w) => (some err, (w, st.2))
    | (Except.ok buf, w) => (none, (w, buf))

/-- The function `htmlToPDF(html, options)`: the returned `([]byte, error)` and the world after
the deferred cancels have run. -/
def htmlToPDF {σ : Type} (dflt : PrintToPDFParams) (eng : Engine σ) (html : String)
    (options : OptionsMap) (w : World σ) : (Bytes × Option GoError) × World σ :=
  let (ctx, cancel, w) := newContext w
  let defers : List (CancelFunc σ) := [cancel]
  let (ctx, cancel, w) := withTimeout ctx 30 w
  let defers := cancel :: defers
  let pdfBuffer : Bytes := []
  let printParams := buildPrintParams dflt options
  let (err, w, pdfBuffer) := chromedpRun eng ctx
    [navigate eng "about:blank", setContent eng html, printAction eng printParams]
    (w, pdfBuffer)
  match err with
  | some err => (([], some (errorfW "failed to generate PDF: " err)), runDefers defers w)
  | none => ((pdfBuffer, none), runDefers defers w)

/-- The function `htmlToScreenshot(html, options)`, in the same way as `htmlToPDF`. -/
def htmlToScreenshot {σ : Type} (indefinite : Float64 → Int) (eng : Engine σ) (html : String)
    (options : OptionsMap) (w : World σ) : (Bytes × Option GoError) × World σ :=
  let (ctx, cancel, w) := newContext w
  let defers : List (CancelFunc σ) := [cancel]
  let (ctx, cancel, w) := withTimeout ctx 30 w
  let defers := cancel :: defers
  let screenshotBuffer : Bytes := []
  let cfg := screenshotOptions indefinite options
  let tasks : List (Action σ) :=
    [emulateViewport eng cfg.width cfg.height, navigate eng "about:blank", setContent eng html]
  let tasks :=
    if cfg.fullPage then tasks ++ [fullScreenshot eng 100] else tasks ++ [captureScreenshot eng]
  let (err, w, screenshotBuffer) := chromedpRun eng ctx tasks (w, screenshotBuffer)
  match err with
  | some err =>
    (([], some (errorfW "failed to capture screenshot: " err)), runDefers defers w)
  | none => ((screenshotBuffer, none), runDefers defers w)

/-- The function `convertToPDFA(pdfBytes, options)`: the placeholder logs a warning and returns
its input. -/
def convertToPDFA (pdfBytes : Bytes) (_options : OptionsMap) : Bytes × Option GoError :=
  (pdfBytes, none)

/-- The struct `PrintRequest`. -/
structure PrintRequest where
  HTML : String
  Options : OptionsMap

/-- The struct `ConvertRequest`. -/
structure ConvertRequest where
  PDF : String
  Options : OptionsMap

/-- The struct `ScreenshotRequest`. -/
structure ScreenshotRequest where
  HTML : String
  Options : OptionsMap

/-- What a handler writes: `c.JSON(status, gin.H{...})` or
`c.Data(status, contentType, body)`. -/
inductive Response where
  | json (status : Nat) (fields : List (String × String))
  | data (status : Nat) (contentType : String) (body : Bytes)
  deriving DecidableEq, Repr

/-- The HTTP status of a response. -/
def Response.status : Response → Nat
  | .json status _ => status
  | .data status _ _ => status

/-- The artifact bytes a response carries (none for a JSON body). -/
def Response.artifact : Response → Option Bytes
  | .json _ _ => none
  | .data _ _ body => some body

/-- The error the validator reports for a field tagged `binding:"required"` that
holds its zero value. -/
def requiredError (structName fieldName : String) : GoError :=
  GoError.plain ("Key: \x27" ++ structName ++ "." ++ fieldName ++
    "\x27 Error:Field validation for \x27" ++ fieldName ++ "\x27 failed on the \x27required\x27 tag")

/-- The call `c.ShouldBindJSON(&req)` for a struct whose one required field is a string.
`decoded` is the outcome of the JSON decoder on the request body: its error, or the
struct it filled, a field the body lacks being left at its zero value.  The
`binding:"required"` tag then rejects a zero value of the field `required` reads. -/
def shouldBindJSON {ρ : Type} (structName fieldName : String) (required : ρ → String)
    (decoded : Except GoError ρ) : Except GoError ρ :=
  match decoded with
  | Except.error err => Except.error err
  | Except.ok req =>
    if required req = "" then Except.error (requiredError structName fieldName)
    else Except.ok req

/-- The handler `handlePrint`; `decoded` is what the JSON decoder made of the body. -/
def handlePrint {σ : Type} (dflt : PrintToPDFParams) (eng : Engine σ)
    (decoded : Except GoError PrintRequest) (w : World σ) : Response × World σ :=
  match shouldBindJSON "PrintRequest" "HTML" PrintRequest.HTML decoded with
  | Except.error err => (Response.json 400 [("error", err.message)], w)
  | Except.ok req =>
    match htmlToPDF dflt eng req.HTML req.Options w with
    | ((_, some err), w) => (Response.json 500 [("error", err.message)], w)
    | ((pdf, none), w) => (Response.data 200 "application/pdf" pdf, w)

/-- The handler `handlePrintPDFA`. -/
def handlePrintPDFA {σ : Type} (dflt : PrintToPDFParams) (eng : Engine σ)
    (decoded : Except GoError PrintRequest) (w : World σ) : Response × World σ :=
  match shouldBindJSON "PrintRequest" "HTML" PrintRequest.HTML decoded with
  | Except.error err => (Response.json 400 [("error", err.message)], w)
  | Except.ok req =>
    match htmlToPDF dflt eng req.HTML req.Options w with
    | ((_, some err), w) => (Response.json 500 [("error", err.message)], w)
    | ((pdf, none), w) =>
      match convertToPDFA pdf req.Options with
      | (_, some err) => (Response.json 500 [("error", err.message)], w)
      | (pdfa, none) => (Response.data 200 "application/pdf" pdfa, w)

/-- The handler `handleConvertPDFA`. -/
def handleConvertPDFA {σ : Type} (decoded : Except GoError ConvertRequest) (w : World σ) :
    Response × World σ :=
  match shouldBindJSON "ConvertRequest" "PDF" ConvertRequest.PDF decoded with
  | Except.error err => (Response.json 400 [("error", err.message)], w)
  | Except.ok req =>
    let pdfBytes := bytesOfString req.PDF
    match convertToPDFA pdfBytes req.Options with
    | (_, some err) => (Response.json 500 [("error", err.message)], w)
    | (pdfa, none) => (Response.data 200 "application/pdf" pdfa, w)

/-- The handler `handleScreenshot`. -/
def handleScreenshot {σ : Type} (indefinite : Float64 → Int) (eng : Engine σ)
    (decoded : Except GoError ScreenshotRequest) (w : World σ) : Response × World σ :=
  match shouldBindJSON "ScreenshotRequest" "HTML" ScreenshotRequest.HTML decoded with
  | Except.error err => (Response.json 400 [("error", err.message)], w)
  | Except.ok req =>
    match htmlToScreenshot indefinite eng req.HTML req.Options w with
    | ((_, some err), w) => (Response.json 500 [("error", err.message)], w)
    | ((screenshot, none), w) => (Response.data 200 "image/png" screenshot, w)

/-- Deleting a key from the options (the nil map has nothing to delete). -/
def OptionsMap.delete (o : OptionsMap) (k : String) : OptionsMap :=
  match o with
  | none => none
  | some m => some (GoMap.delete m k)

/-- An action only appends requests of its own session, all within `P`, to the
record, and allocates no session. -/
def Emits {σ : Type} (P : Op → Prop) (a : Action σ) : Prop :=
  ∀ (ctx : Ctx) (st : World σ × Bytes), ∃ ops : List Op,
    (∀ op ∈ ops, P op) ∧
    (a ctx st).2.1.log = st.1.log ++ ops.map (Event.ran ctx.session) ∧
    (a ctx st).2.1.next = st.1.next

/-- The requests `htmlToPDF` may send for given arguments. -/
def PdfOp (dflt : PrintToPDFParams) (html : String) (options : OptionsMap) (op : Op) : Prop :=
  op = Op.start ∨ op = Op.navigate "about:blank" ∨ op = Op.getFrameTree ∨
    (∃ frameID, op = Op.setDocumentContent frameID html) ∨
    op = Op.printToPDF (buildPrintParams dflt options)

/-- The requests `htmlToScreenshot` may send for given arguments. -/
def ScreenshotOp (indefinite : Float64 → Int) (html : String) (options : OptionsMap)
    (op : Op) : Prop :=
  op = Op.start ∨
    op = Op.emulateViewport (screenshotOptions indefinite options).width
      (screenshotOptions indefinite options).height ∨
    op = Op.navigate "about:blank" ∨ op = Op.getFrameTree ∨
    (∃ frameID, op = Op.setDocumentContent frameID html) ∨
    ((screenshotOptions indefinite options).fullPage = true ∧ op = Op.fullScreenshot 100) ∨
    ((screenshotOptions indefinite options).fullPage = false ∧ op = Op.captureScreenshot)

/-- The events one render call appends for session `s` running requests `ops`. -/
def callEvents (s : Nat) (ops : List Op) : List Event :=
  Event.created s :: Event.deadlineSet s 30 :: ops.map (Event.ran s) ++
    [Event.timeoutCancelled s, Event.released s]

/-- The context under which the actions of a call from world `w` run. -/
def callCtx {σ : Type} (w : World σ) : Ctx :=
  { session := w.next, timeout := some 30 }

/-- The world in which the actions of a call run: its session is created and
under the 30 second deadline. -/
def opened {σ : Type} (w : World σ) : World σ :=
  { eng := w.eng, next := w.next + 1,
    log := w.log ++ [Event.created w.next, Event.deadlineSet w.next 30] }

/-- The `chromedp.Run` call of `htmlToPDF`, with the context and world it runs in. -/
def pdfRun {σ : Type} (dflt : PrintToPDFParams) (eng : Engine σ) (html : String)
    (options : OptionsMap) (w : World σ) : Option GoError × (World σ × Bytes) :=
  chromedpRun eng (callCtx w)
    [navigate eng "about:blank", setContent eng html,
      printAction eng (buildPrintParams dflt options)]
    (opened w, [])

/-- The task list of `htmlToScreenshot`. -/
def screenshotTasks {σ : Type} (indefinite : Float64 → Int) (eng : Engine σ) (html : String)
    (options : OptionsMap) : List (Action σ) :=
  let cfg := screenshotOptions indefinite options
  let tasks : List (Action σ) :=
    [emulateViewport eng cfg.width cfg.height, navigate eng "about:blank", setContent eng html]
  if cfg.fullPage then tasks ++ [fullScreenshot eng 100] else tasks ++ [captureScreenshot eng]

/-- The `chromedp.Run` call of `htmlToScreenshot`, with the context and world it runs in. -/
def screenshotRun {σ : Type} (indefinite : Float64 → Int) (eng : Engine σ) (html : String)
    (options : OptionsMap) (w : World σ) : Option GoError × (World σ × Bytes) :=
  chromedpRun eng (callCtx w)
    (screenshotTasks indefinite eng html options) (opened w, [])

/-- The world after the two deferred cancels of session `s`. -/
def closed {σ : Type} (s : Nat) (w : World σ) : World σ :=
  { w with log := w.log ++ [Event.timeoutCancelled s, Event.released s] }

/-- What a renderer returns after its `chromedp.Run` call answered `r`. -/
def finish {σ : Type} (s : Nat) (context : String) (r : Option GoError × (World σ × Bytes)) :
    (Bytes × Option GoError) × World σ :=
  match r.1 with
  | some err => (([], some (errorfW context err)), closed s r.2.1)
  | none => ((r.2.2, none), closed s r.2.1)

/-- The zero value of `PrintToPDFParams`, which `page.PrintToPDF()` returns. -/
def zeroPrintToPDFParams : PrintToPDFParams :=
  { landscape := false, displayHeaderFooter := false, printBackground := false,
    scale := Float64.finite false 0 0, paperWidth := Float64.finite false 0 0,
    paperHeight := Float64.finite false 0 0, marginTop := Float64.finite false 0 0,
    marginBottom := Float64.finite false 0 0, marginLeft := Float64.finite false 0 0,
    marginRight := Float64.finite false 0 0, pageRanges := "" }

/-- An engine without state that answers every request: frame `"F"`, a PDF of the
four bytes `%PDF`, a screenshot of the one byte `0x89`. -/
def okEngine : Engine Unit :=
  { start := fun s => (none, s)
    emulateViewport := fun _ _ s => (none, s)
    navigate := fun _ s => (none, s)
    getFrameTree := fun s => (Except.ok "F", s)
    setDocumentContent := fun _ _ s => (none, s)
    printToPDF := fun _ s => (Except.ok [37, 80, 68, 70], s)
    captureScreenshot := fun s => (Except.ok [137], s)
    fullScreenshot := fun _ s => (Except.ok [137], s) }

/-- The world before any call. -/
def World.initial : World Unit :=
  { eng := (), next := 0, log := [] }

/-- The platform choice of amd64: every unrepresentable conversion gives `-2^63`. -/
def amd64Indefinite : Float64 → Int :=
  fun _ => -(2 : Int) ^ 63

/-- Rounding toward zero, in the words of the claim: the fractional part of `q` is
discarded. -/
def roundTowardZero (q : ℚ) : Int :=
  if 0 ≤ q then ⌊q⌋ else ⌈q⌉

/-- The session an event is about. -/
def Event.session : Event → Nat
  | .created s => s
  | .deadlineSet s _ => s
  | .ran s _ => s
  | .timeoutCancelled s => s
  | .released s => s

/-- Every session of the record was allocated below the next fresh number. -/
def World.Fresh {σ : Type} (w : World σ) : Prop :=
  ∀ ev ∈ w.log, ev.session < w.next

/-- The error of `htmlToPDF` in content injection, if that is where its run fails:
the session starts, and the blank navigation, the frame-tree lookup or
`SetDocumentContent` answers with the error. -/
def pdfInjectionError {σ : Type} (eng : Engine σ) (html : String) (w : World σ) :
    Option GoError :=
  match request (callCtx w) Op.start eng.start (opened w) with
  | (some _, _) => none
  | (none, w1) =>
    (runTasks (callCtx w) [navigate eng "about:blank", setContent eng html] (w1, [])).1

/-- The error of `htmlToPDF` in the rendering step, if that is where its run fails:
content injection succeeds and print-to-PDF answers with the error. -/
def pdfRenderError {σ : Type} (dflt : PrintToPDFParams) (eng : Engine σ) (html : String)
    (options : OptionsMap) (w : World σ) : Option GoError :=
  match request (callCtx w) Op.start eng.start (opened w) with
  | (some _, _) => none
  | (none, w1) =>
    match runTasks (callCtx w) [navigate eng "about:blank", setContent eng html] (w1, []) with
    | (some _, _) => none
    | (none, st) => (printAction eng (buildPrintParams dflt options) (callCtx w) st).1

/-- The error of `htmlToScreenshot` in content injection, if that is where its run
fails. -/
def screenshotInjectionError {σ : Type} (indefinite : Float64 → Int) (eng : Engine σ)
    (html : String) (options : OptionsMap) (w : World σ) : Option GoError :=
  match request (callCtx w) Op.start eng.start (opened w) with
  | (some _, _) => none
  | (none, w1) =>
    match runTasks (callCtx w)
      [emulateViewport eng (screenshotOptions indefinite options).width
        (screenshotOptions indefinite options).height] (w1, []) with
    | (some _, _) => none
    | (none, st) =>
      (runTasks (callCtx w) [navigate eng "about:blank", setContent eng html] st).1

/-- The error of `htmlToScreenshot` in the capture step, if that is where its run
fails. -/
def screenshotRenderError {σ : Type} (indefinite : Float64 → Int) (eng : Engine σ)
    (html : String) (options : OptionsMap) (w : World σ) : Option GoError :=
  match request (callCtx w) Op.start eng.start (opened w) with
  | (some _, _) => none
  | (none, w1) =>
    match runTasks (callCtx w)
      [emulateViewport eng (screenshotOptions indefinite options).width
        (screenshotOptions indefinite options).height,
        navigate eng "about:blank", setContent eng html] (w1, []) with
    | (some _, _) => none
    | (none, st) =>
      if (screenshotOptions indefinite options).fullPage then
        (fullScreenshot eng 100 (callCtx w) st).1
      else (captureScreenshot eng (callCtx w) st).1

/-- An engine whose frame-tree lookup fails with `e`; everything else answers. -/
def injectionFailEngine (e : GoError) : Engine Unit :=
  { okEngine with getFrameTree := fun s => (Except.error e, s) }

/-- An engine whose print and capture requests fail with `e`; everything else answers. -/
def renderFailEngine (e : GoError) : Engine Unit :=
  { okEngine with
    printToPDF := fun _ s => (Except.error e, s)
    captureScreenshot := fun s => (Except.error e, s)
    fullScreenshot := fun _ s => (Except.error e, s) }

/-! ## Theorems -/

theorem GoMap.lookup_delete_self (m : GoMap) (k : String) :
    (GoMap.delete m k).lookup k = none := by
  induction m with
  | nil => rfl
  | cons p rest ih =>
    obtain ⟨a, v⟩ := p
    by_cases h : a = k
    · subst h
      simpa [GoMap.delete, List.filter] using ih
    · have h1 : (a == k) = false := by simpa using h
      have h2 : (k == a) = false := by simpa using fun e : k = a => h e.symm
      simp only [GoMap.delete, List.filter, h1, Bool.not_false, List.lookup, h2]
      simpa [GoMap.delete] using ih

theorem GoMap.lookup_delete_other (m : GoMap) (k k1 : String) (h : k1 ≠ k) :
    (GoMap.delete m k).lookup k1 = m.lookup k1 := by
  induction m with
  | nil => rfl
  | cons p rest ih =>
    obtain ⟨a, v⟩ := p
    by_cases ha : a = k
    · subst ha
      have h2 : (k1 == a) = false := by simpa using h
      simp only [GoMap.delete, List.filter, beq_self_eq_true, Bool.not_true, List.lookup, h2]
      simpa [GoMap.delete] using ih
    · have h1 : (a == k) = false := by simpa using ha
      simp only [GoMap.delete, List.filter, h1, Bool.not_false, List.lookup]
      split
      · rfl
      · simpa [GoMap.delete] using ih

theorem GoMap.index_delete_self (m : GoMap) (k : String) :
    (GoMap.delete m k).index k = Dyn.null := by
  simp [GoMap.index, GoMap.lookup_delete_self]

theorem GoMap.index_delete_other (m : GoMap) (k k1 : String) (h : k1 ≠ k) :
    (GoMap.delete m k).index k1 = m.index k1 := by
  simp [GoMap.index, GoMap.lookup_delete_other m k k1 h]

theorem GoMap.index_of_lookup (m : GoMap) (k : String) (v : Dyn) (h : m.lookup k = some v) :
    m.index k = v := by
  simp [GoMap.index, h]

theorem GoMap.index_of_lookup_none (m : GoMap) (k : String) (h : m.lookup k = none) :
    m.index k = Dyn.null := by
  simp [GoMap.index, h]

theorem setIf_landscape (m : GoMap) (k : String) (p : PrintToPDFParams) :
    setIfBool m k PrintToPDFParams.WithLandscape p =
      p.WithLandscape (((m.index k).asBool).getD p.landscape) := by
  unfold setIfBool
  cases (m.index k).asBool <;> rfl

theorem setIf_displayHeaderFooter (m : GoMap) (k : String) (p : PrintToPDFParams) :
    setIfBool m k PrintToPDFParams.WithDisplayHeaderFooter p =
      p.WithDisplayHeaderFooter (((m.index k).asBool).getD p.displayHeaderFooter) := by
  unfold setIfBool
  cases (m.index k).asBool <;> rfl

theorem setIf_printBackground (m : GoMap) (k : String) (p : PrintToPDFParams) :
    setIfBool m k PrintToPDFParams.WithPrintBackground p =
      p.WithPrintBackground (((m.index k).asBool).getD p.printBackground) := by
  unfold setIfBool
  cases (m.index k).asBool <;> rfl

theorem setIf_scale (m : GoMap) (k : String) (p : PrintToPDFParams) :
    setIfFloat64 m k PrintToPDFParams.WithScale p =
      p.WithScale (((m.index k).asFloat64).getD p.scale) := by
  unfold setIfFloat64
  cases (m.index k).asFloat64 <;> rfl

theorem setIf_paperWidth (m : GoMap) (k : String) (p : PrintToPDFParams) :
    setIfFloat64 m k PrintToPDFParams.WithPaperWidth p =
      p.WithPaperWidth (((m.index k).asFloat64).getD p.paperWidth) := by
  unfold setIfFloat64
  cases (m.index k).asFloat64 <;> rfl

theorem setIf_paperHeight (m : GoMap) (k : String) (p : PrintToPDFParams) :
    setIfFloat64 m k PrintToPDFParams.WithPaperHeight p =
      p.WithPaperHeight (((m.index k).asFloat64).getD p.paperHeight) := by
  unfold setIfFloat64
  cases (m.index k).asFloat64 <;> rfl

theorem setIf_marginTop (m : GoMap) (k : String) (p : PrintToPDFParams) :
    setIfFloat64 m k PrintToPDFParams.WithMarginTop p =
      p.WithMarginTop (((m.index k).asFloat64).getD p.marginTop) := by
  unfold setIfFloat64
  cases (m.index k).asFloat64 <;> rfl

theorem setIf_marginBottom (m : GoMap) (k : String) (p : PrintToPDFParams) :
    setIfFloat64 m k PrintToPDFParams.WithMarginBottom p =
      p.WithMarginBottom (((m.index k).asFloat64).getD p.marginBottom) := by
  unfold setIfFloat64
  cases (m.index k).asFloat64 <;> rfl

theorem setIf_marginLeft (m : GoMap) (k : String) (p : PrintToPDFParams) :
    setIfFloat64 m k PrintToPDFParams.WithMarginLeft p =
      p.WithMarginLeft (((m.index k).asFloat64).getD p.marginLeft) := by
  unfold setIfFloat64
  cases (m.index k).asFloat64 <;> rfl

theorem setIf_marginRight (m : GoMap) (k : String) (p : PrintToPDFParams) :
    setIfFloat64 m k PrintToPDFParams.WithMarginRight p =
      p.WithMarginRight (((m.index k).asFloat64).getD p.marginRight) := by
  unfold setIfFloat64
  cases (m.index k).asFloat64 <;> rfl

theorem setIf_pageRanges (m : GoMap) (k : String) (p : PrintToPDFParams) :
    setIfString m k PrintToPDFParams.WithPageRanges p =
      p.WithPageRanges (((m.index k).asString).getD p.pageRanges) := by
  unfold setIfString
  cases (m.index k).asString <;> rfl

/-- The print parameters built from a non-nil map, field by field. -/
theorem buildPrintParams_some (dflt : PrintToPDFParams) (m : GoMap) :
    buildPrintParams dflt (some m) =
      { landscape := ((m.index "landscape").asBool).getD dflt.landscape
        displayHeaderFooter :=
          ((m.index "display_header_footer").asBool).getD dflt.displayHeaderFooter
        printBackground := ((m.index "print_background").asBool).getD dflt.printBackground
        scale := ((m.index "scale").asFloat64).getD dflt.scale
        paperWidth := ((m.index "paper_width").asFloat64).getD dflt.paperWidth
        paperHeight := ((m.index "paper_height").asFloat64).getD dflt.paperHeight
        marginTop := ((m.index "margin_top").asFloat64).getD dflt.marginTop
        marginBottom := ((m.index "margin_bottom").asFloat64).getD dflt.marginBottom
        marginLeft := ((m.index "margin_left").asFloat64).getD dflt.marginLeft
        marginRight := ((m.index "margin_right").asFloat64).getD dflt.marginRight
        pageRanges := ((m.index "page_ranges").asString).getD dflt.pageRanges } := by
  simp only [buildPrintParams, setIf_landscape, setIf_displayHeaderFooter, setIf_printBackground, setIf_scale, setIf_paperWidth, setIf_paperHeight, setIf_marginTop, setIf_marginBottom, setIf_marginLeft, setIf_marginRight, setIf_pageRanges]
  rfl

theorem request_log {σ α : Type} (ctx : Ctx) (op : Op) (call : σ → α × σ) (w : World σ) :
    (request ctx op call w).2.log = w.log ++ [Event.ran ctx.session op] ∧
    (request ctx op call w).2.next = w.next := by
  simp [request, World.emit]

theorem Emits.mono {σ : Type} {P Q : Op → Prop} {a : Action σ} (h : Emits P a)
    (hPQ : ∀ op, P op → Q op) : Emits Q a := by
  intro ctx st
  obtain ⟨ops, h1, h2, h3⟩ := h ctx st
  exact ⟨ops, fun op hop => hPQ op (h1 op hop), h2, h3⟩

theorem navigate_emits {σ : Type} (eng : Engine σ) (url : String) :
    Emits (fun op => op = Op.navigate url) (navigate eng url) := by
  intro ctx st
  refine ⟨[Op.navigate url], by simp, ?_, ?_⟩ <;> simp [navigate, request, World.emit]

theorem emulateViewport_emits {σ : Type} (eng : Engine σ) (width height : Int) :
    Emits (fun op => op = Op.emulateViewport width height) (emulateViewport eng width height) := by
  intro ctx st
  refine ⟨[Op.emulateViewport width height], by simp, ?_, ?_⟩ <;>
    simp [emulateViewport, request, World.emit]

theorem setContent_emits {σ : Type} (eng : Engine σ) (html : String) :
    Emits (fun op => op = Op.getFrameTree ∨ ∃ frameID, op = Op.setDocumentContent frameID html)
      (setContent eng html) := by
  intro ctx st
  rcases h : eng.getFrameTree st.1.eng with ⟨r, s1⟩
  cases r with
  | error err =>
    refine ⟨[Op.getFrameTree], by simp, ?_, ?_⟩ <;> simp [setContent, request, World.emit, h]
  | ok frameID =>
    refine ⟨[Op.getFrameTree, Op.setDocumentContent frameID html], ?_, ?_, ?_⟩
    · intro op hop
      simp only [List.mem_cons, List.mem_singleton, List.not_mem_nil, or_false] at hop
      rcases hop with rfl | rfl
      · exact Or.inl rfl
      · exact Or.inr ⟨frameID, rfl⟩
    · simp [setContent, request, World.emit, h]
    · simp [setContent, request, World.emit, h]

theorem printAction_emits {σ : Type} (eng : Engine σ) (printParams : PrintToPDFParams) :
    Emits (fun op => op = Op.printToPDF printParams) (printAction eng printParams) := by
  intro ctx st
  rcases h : eng.printToPDF printParams st.1.eng with ⟨r, s1⟩
  refine ⟨[Op.printToPDF printParams], by simp, ?_, ?_⟩ <;>
    cases r <;> simp [printAction, request, World.emit, h]

theorem captureScreenshot_emits {σ : Type} (eng : Engine σ) :
    Emits (fun op => op = Op.captureScreenshot) (captureScreenshot eng) := by
  intro ctx st
  rcases h : eng.captureScreenshot st.1.eng with ⟨r, s1⟩
  refine ⟨[Op.captureScreenshot], by simp, ?_, ?_⟩ <;>
    cases r <;> simp [captureScreenshot, request, World.emit, h]

theorem fullScreenshot_emits {σ : Type} (eng : Engine σ) (quality : Int) :
    Emits (fun op => op = Op.fullScreenshot quality) (fullScreenshot eng quality) := by
  intro ctx st
  rcases h : eng.fullScreenshot quality st.1.eng with ⟨r, s1⟩
  refine ⟨[Op.fullScreenshot quality], by simp, ?_, ?_⟩ <;>
    cases r <;> simp [fullScreenshot, request, World.emit, h]

theorem runTasks_emits {σ : Type} (P : Op → Prop) (actions : List (Action σ))
    (h : ∀ a ∈ actions, Emits P a) : Emits P (fun ctx st => runTasks ctx actions st) := by
  induction actions with
  | nil =>
    intro ctx st
    exact ⟨[], by simp, by simp [runTasks], by simp [runTasks]⟩
  | cons a rest ih =>
    intro ctx st
    obtain ⟨ops1, hP1, hlog1, hnext1⟩ := h a (List.mem_cons_self a rest) ctx st
    rcases hr : a ctx st with ⟨r, st1⟩
    rw [hr] at hlog1 hnext1
    cases r with
    | some err =>
      exact ⟨ops1, hP1, by simpa [runTasks, hr] using hlog1, by simpa [runTasks, hr] using hnext1⟩
    | none =>
      obtain ⟨ops2, hP2, hlog2, hnext2⟩ :=
        ih (fun b hb => h b (List.mem_cons_of_mem a hb)) ctx st1
      refine ⟨ops1 ++ ops2, ?_, ?_, ?_⟩
      · intro op hop
        rcases List.mem_append.mp hop with h1 | h2
        · exact hP1 op h1
        · exact hP2 op h2
      · simp only [runTasks, hr]
        simp only at hlog1 hlog2
        rw [hlog2, hlog1, List.map_append, List.append_assoc]
      · simp only [runTasks, hr]
        simp only at hnext1 hnext2
        rw [hnext2, hnext1]

theorem chromedpRun_emits {σ : Type} (P : Op → Prop) (eng : Engine σ)
    (actions : List (Action σ)) (hstart : P Op.start) (h : ∀ a ∈ actions, Emits P a) :
    Emits P (fun ctx st => chromedpRun eng ctx actions st) := by
  intro ctx st
  rcases hs : eng.start st.1.eng with ⟨r, s1⟩
  cases r with
  | some err =>
    refine ⟨[Op.start], ?_, ?_, ?_⟩
    · intro op hop
      rw [List.mem_singleton.mp hop]
      exact hstart
    · simp [chromedpRun, request, World.emit, hs]
    · simp [chromedpRun, request, World.emit, hs]
  | none =>
    obtain ⟨ops, hP, hlog, hnext⟩ := runTasks_emits P actions h ctx
      ({ (st.1.emit (Event.ran ctx.session Op.start)) with eng := s1 }, st.2)
    refine ⟨Op.start :: ops, ?_, ?_, ?_⟩
    · intro op hop
      rcases List.mem_cons.mp hop with rfl | h2
      · exact hstart
      · exact hP op h2
    · simp only [chromedpRun, request, hs]
      simp only at hlog
      rw [hlog]
      simp [World.emit]
    · simp only [chromedpRun, request, hs]
      simp only at hnext
      rw [hnext]
      simp [World.emit]

theorem htmlToPDF_eq {σ : Type} (dflt : PrintToPDFParams) (eng : Engine σ) (html : String)
    (options : OptionsMap) (w : World σ) :
    htmlToPDF dflt eng html options w =
      finish w.next "failed to generate PDF: " (pdfRun dflt eng html options w) := by
  simp only [htmlToPDF, newContext, withTimeout, runDefers, World.emit, finish, pdfRun, opened,
    closed, callCtx, List.append_assoc, List.cons_append, List.nil_append]

theorem htmlToScreenshot_eq {σ : Type} (indefinite : Float64 → Int) (eng : Engine σ)
    (html : String) (options : OptionsMap) (w : World σ) :
    htmlToScreenshot indefinite eng html options w =
      finish w.next "failed to capture screenshot: "
        (screenshotRun indefinite eng html options w) := by
  simp only [htmlToScreenshot, newContext, withTimeout, runDefers, World.emit, finish,
    screenshotRun, screenshotTasks, opened, closed, callCtx, List.append_assoc, List.cons_append,
    List.nil_append]

theorem pdfRun_record {σ : Type} (dflt : PrintToPDFParams) (eng : Engine σ) (html : String)
    (options : OptionsMap) (w : World σ) :
    ∃ ops : List Op, (∀ op ∈ ops, PdfOp dflt html options op) ∧
      (pdfRun dflt eng html options w).2.1.log = (opened w).log ++ ops.map (Event.ran w.next) ∧
      (pdfRun dflt eng html options w).2.1.next = w.next + 1 := by
  have hall : ∀ a ∈ [navigate eng "about:blank", setContent eng html,
      printAction eng (buildPrintParams dflt options)], Emits (PdfOp dflt html options) a := by
    intro a ha
    simp only [List.mem_cons, List.mem_singleton, List.not_mem_nil, or_false] at ha
    rcases ha with rfl | rfl | rfl
    · exact (navigate_emits eng _).mono (fun op h => Or.inr (Or.inl h))
    · exact (setContent_emits eng html).mono (fun op h => by
        rcases h with h | h
        · exact Or.inr (Or.inr (Or.inl h))
        · exact Or.inr (Or.inr (Or.inr (Or.inl h))))
    · exact (printAction_emits eng _).mono (fun op h => Or.inr (Or.inr (Or.inr (Or.inr h))))
  exact chromedpRun_emits (PdfOp dflt html options) eng _ (Or.inl rfl) hall
    { session := w.next, timeout := some 30 } (opened w, [])

theorem screenshotTasks_emits {σ : Type} (indefinite : Float64 → Int) (eng : Engine σ)
    (html : String) (options : OptionsMap) :
    ∀ a ∈ screenshotTasks indefinite eng html options,
      Emits (ScreenshotOp indefinite html options) a := by
  intro a ha
  have hmem : a = emulateViewport eng (screenshotOptions indefinite options).width
        (screenshotOptions indefinite options).height ∨
      a = navigate eng "about:blank" ∨ a = setContent eng html ∨
      ((screenshotOptions indefinite options).fullPage = true ∧ a = fullScreenshot eng 100) ∨
      ((screenshotOptions indefinite options).fullPage = false ∧
        a = captureScreenshot eng) := by
    cases hfp : (screenshotOptions indefinite options).fullPage <;>
      simp only [screenshotTasks, hfp, List.mem_append, List.mem_cons, List.mem_singleton,
        List.not_mem_nil, or_false, if_true, if_false, Bool.false_eq_true] at ha <;>
      rcases ha with (h | h | h) | h <;> simp [h]
  rcases hmem with rfl | rfl | rfl | ⟨hfp, rfl⟩ | ⟨hfp, rfl⟩
  · exact (emulateViewport_emits eng _ _).mono (fun op h => Or.inr (Or.inl h))
  · exact (navigate_emits eng _).mono (fun op h => Or.inr (Or.inr (Or.inl h)))
  · exact (setContent_emits eng html).mono (fun op h => by
      rcases h with h | h
      · exact Or.inr (Or.inr (Or.inr (Or.inl h)))
      · exact Or.inr (Or.inr (Or.inr (Or.inr (Or.inl h)))))
  · exact (fullScreenshot_emits eng 100).mono
      (fun op h => Or.inr (Or.inr (Or.inr (Or.inr (Or.inr (Or.inl ⟨hfp, h⟩))))))
  · exact (captureScreenshot_emits eng).mono
      (fun op h => Or.inr (Or.inr (Or.inr (Or.inr (Or.inr (Or.inr ⟨hfp, h⟩))))))

theorem screenshotRun_record {σ : Type} (indefinite : Float64 → Int) (eng : Engine σ)
    (html : String) (options : OptionsMap) (w : World σ) :
    ∃ ops : List Op, (∀ op ∈ ops, ScreenshotOp indefinite html options op) ∧
      (screenshotRun indefinite eng html options w).2.1.log =
        (opened w).log ++ ops.map (Event.ran w.next) ∧
      (screenshotRun indefinite eng html options w).2.1.next = w.next + 1 :=
  chromedpRun_emits (ScreenshotOp indefinite html options) eng _ (Or.inl rfl)
    (screenshotTasks_emits indefinite eng html options)
    { session := w.next, timeout := some 30 } (opened w, [])

theorem finish_record {σ : Type} (s : Nat) (context : String)
    (r : Option GoError × (World σ × Bytes)) :
    (finish s context r).2.log = r.2.1.log ++ [Event.timeoutCancelled s, Event.released s] ∧
    (finish s context r).2.next = r.2.1.next := by
  unfold finish
  split <;> simp [closed]

theorem htmlToPDF_record {σ : Type} (dflt : PrintToPDFParams) (eng : Engine σ) (html : String)
    (options : OptionsMap) (w : World σ) :
    ∃ ops : List Op, (∀ op ∈ ops, PdfOp dflt html options op) ∧
      (htmlToPDF dflt eng html options w).2.log = w.log ++ callEvents w.next ops ∧
      (htmlToPDF dflt eng html options w).2.next = w.next + 1 := by
  obtain ⟨ops, hP, hlog, hnext⟩ := pdfRun_record dflt eng html options w
  refine ⟨ops, hP, ?_, ?_⟩
  · rw [htmlToPDF_eq, (finish_record _ _ _).1, hlog]
    simp [opened, callEvents]
  · rw [htmlToPDF_eq, (finish_record _ _ _).2, hnext]

theorem htmlToScreenshot_record {σ : Type} (indefinite : Float64 → Int) (eng : Engine σ)
    (html : String) (options : OptionsMap) (w : World σ) :
    ∃ ops : List Op, (∀ op ∈ ops, ScreenshotOp indefinite html options op) ∧
      (htmlToScreenshot indefinite eng html options w).2.log = w.log ++ callEvents w.next ops ∧
      (htmlToScreenshot indefinite eng html options w).2.next = w.next + 1 := by
  obtain ⟨ops, hP, hlog, hnext⟩ := screenshotRun_record indefinite eng html options w
  refine ⟨ops, hP, ?_, ?_⟩
  · rw [htmlToScreenshot_eq, (finish_record _ _ _).1, hlog]
    simp [opened, callEvents]
  · rw [htmlToScreenshot_eq, (finish_record _ _ _).2, hnext]

theorem printToPDF_sent {σ : Type} (dflt : PrintToPDFParams) (eng : Engine σ) (html : String)
    (options : OptionsMap) (w : World σ) (s : Nat) (q : PrintToPDFParams)
    (h : Event.ran s (Op.printToPDF q) ∈
      (htmlToPDF dflt eng html options w).2.log.drop w.log.length) :
    q = buildPrintParams dflt options := by
  obtain ⟨ops, hP, hlog, _⟩ := htmlToPDF_record dflt eng html options w
  rw [hlog, List.drop_left] at h
  simp only [callEvents, List.mem_cons, List.mem_append, List.mem_map, List.mem_singleton,
    List.not_mem_nil, or_false, reduceCtorEq, false_or] at h
  obtain ⟨op, hop, heq⟩ := h
  injection heq with _ hopq
  subst hopq
  rcases hP _ hop with h1 | h1 | h1 | ⟨_, h1⟩ | h1
  · exact absurd h1 (by simp)
  · exact absurd h1 (by simp)
  · exact absurd h1 (by simp)
  · exact absurd h1 (by simp)
  · injection h1

theorem buildPrintParams_nil (dflt : PrintToPDFParams) : buildPrintParams dflt none = dflt := rfl

theorem buildPrintParams_delete (dflt : PrintToPDFParams) (m : GoMap) (k : String)
    (hb : ∀ k1 ∈ ["landscape", "display_header_footer", "print_background"],
      k1 = k → (m.index k1).asBool = none)
    (hf : ∀ k1 ∈ ["scale", "paper_width", "paper_height", "margin_top", "margin_bottom",
      "margin_left", "margin_right"], k1 = k → (m.index k1).asFloat64 = none)
    (hs : ∀ k1 ∈ ["page_ranges"], k1 = k → (m.index k1).asString = none) :
    buildPrintParams dflt (some m) = buildPrintParams dflt (some (GoMap.delete m k)) := by
  have eb : ∀ k1 ∈ ["landscape", "display_header_footer", "print_background"],
      ((GoMap.delete m k).index k1).asBool = (m.index k1).asBool := by
    intro k1 hk1
    by_cases hk : k1 = k
    · rw [hb k1 hk1 hk, hk, GoMap.index_delete_self]
      rfl
    · rw [GoMap.index_delete_other m k k1 hk]
  have ef : ∀ k1 ∈ ["scale", "paper_width", "paper_height", "margin_top", "margin_bottom",
      "margin_left", "margin_right"],
      ((GoMap.delete m k).index k1).asFloat64 = (m.index k1).asFloat64 := by
    intro k1 hk1
    by_cases hk : k1 = k
    · rw [hf k1 hk1 hk, hk, GoMap.index_delete_self]
      rfl
    · rw [GoMap.index_delete_other m k k1 hk]
  have es : ∀ k1 ∈ ["page_ranges"],
      ((GoMap.delete m k).index k1).asString = (m.index k1).asString := by
    intro k1 hk1
    by_cases hk : k1 = k
    · rw [hs k1 hk1 hk, hk, GoMap.index_delete_self]
      rfl
    · rw [GoMap.index_delete_other m k k1 hk]
  rw [buildPrintParams_some, buildPrintParams_some,
    eb "landscape" (by simp), eb "display_header_footer" (by simp),
    eb "print_background" (by simp), ef "scale" (by simp), ef "paper_width" (by simp),
    ef "paper_height" (by simp), ef "margin_top" (by simp), ef "margin_bottom" (by simp),
    ef "margin_left" (by simp), ef "margin_right" (by simp), es "page_ranges" (by simp)]

theorem htmlToPDF_error_from_run {σ : Type} (dflt : PrintToPDFParams) (eng : Engine σ)
    (html : String) (options : OptionsMap) (w : World σ) (err : GoError)
    (h : (htmlToPDF dflt eng html options w).1.2 = some err) :
    ∃ e, (pdfRun dflt eng html options w).1 = some e ∧
      err = errorfW "failed to generate PDF: " e := by
  rw [htmlToPDF_eq] at h
  unfold finish at h
  split at h
  · rename_i e he
    exact ⟨e, he, by simpa using h.symm⟩
  · simp at h

/-- C2: an error of `htmlToPDF` is always the wrapped error of its `chromedp.Run` call,
never one of option building; and a recognised key bound to a value that is not of
its expected dynamic type leaves its field at the default of `page.PrintToPDF()`,
the parameters being those built from the options without that key. -/
theorem mistyped_option_ignored {σ : Type} (dflt : PrintToPDFParams) (eng : Engine σ)
    (html : String) (options : OptionsMap) (w : World σ) :
    (∀ err, (htmlToPDF dflt eng html options w).1.2 = some err →
      ∃ e, (pdfRun dflt eng html options w).1 = some e ∧
        err = errorfW "failed to generate PDF: " e) ∧
    (∀ v, options.get? "landscape" = some v → v.asBool = none →
      (buildPrintParams dflt options).landscape = dflt.landscape ∧
      buildPrintParams dflt options = buildPrintParams dflt (options.delete "landscape")) ∧
    (∀ v, options.get? "display_header_footer" = some v → v.asBool = none →
      (buildPrintParams dflt options).displayHeaderFooter = dflt.displayHeaderFooter ∧
      buildPrintParams dflt options = buildPrintParams dflt (options.delete "display_header_footer")) ∧
    (∀ v, options.get? "print_background" = some v → v.asBool = none →
      (buildPrintParams dflt options).printBackground = dflt.printBackground ∧
      buildPrintParams dflt options = buildPrintParams dflt (options.delete "print_background")) ∧
    (∀ v, options.get? "scale" = some v → v.asFloat64 = none →
      (buildPrintParams dflt options).scale = dflt.scale ∧
      buildPrintParams dflt options = buildPrintParams dflt (options.delete "scale")) ∧
    (∀ v, options.get? "paper_width" = some v → v.asFloat64 = none →
      (buildPrintParams dflt options).paperWidth = dflt.paperWidth ∧
      buildPrintParams dflt options = buildPrintParams dflt (options.delete "paper_width")) ∧
    (∀ v, options.get? "paper_height" = some v → v.asFloat64 = none →
      (buildPrintParams dflt options).paperHeight = dflt.paperHeight ∧
      buildPrintParams dflt options = buildPrintParams dflt (options.delete "paper_height")) ∧
    (∀ v, options.get? "margin_top" = some v → v.asFloat64 = none →
      (buildPrintParams dflt options).marginTop = dflt.marginTop ∧
      buildPrintParams dflt options = buildPrintParams dflt (options.delete "margin_top")) ∧
    (∀ v, options.get? "margin_bottom" = some v → v.asFloat64 = none →
      (buildPrintParams dflt options).marginBottom = dflt.marginBottom ∧
      buildPrintParams dflt options = buildPrintParams dflt (options.delete "margin_bottom")) ∧
    (∀ v, options.get? "margin_left" = some v → v.asFloat64 = none →
      (buildPrintParams dflt options).marginLeft = dflt.marginLeft ∧
      buildPrintParams dflt options = buildPrintParams dflt (options.delete "margin_left")) ∧
    (∀ v, options.get? "margin_right" = some v → v.asFloat64 = none →
      (buildPrintParams dflt options).marginRight = dflt.marginRight ∧
      buildPrintParams dflt options = buildPrintParams dflt (options.delete "margin_right")) ∧
    (∀ v, options.get? "page_ranges" = some v → v.asString = none →
      (buildPrintParams dflt options).pageRanges = dflt.pageRanges ∧
      buildPrintParams dflt options = buildPrintParams dflt (options.delete "page_ranges")) := by
  refine ⟨fun err h => htmlToPDF_error_from_run dflt eng html options w err h, ?_⟩
  cases options with
  | none => simp [OptionsMap.get?]
  | some m =>
    simp only [OptionsMap.get?, OptionsMap.delete]
    refine ⟨?_, ?_, ?_, ?_, ?_, ?_, ?_, ?_, ?_, ?_, ?_⟩ <;>
      (intro v hv hty
       have hidx := GoMap.index_of_lookup m _ v hv
       refine ⟨?_, ?_⟩
       · rw [buildPrintParams_some]
         simp [hidx, hty]
       · apply buildPrintParams_delete <;>
           (intro k1 hk1 hk
            first
              | (subst hk
                 rw [hidx]
                 exact hty)
              | (exfalso
                 revert hk
                 simp only [List.mem_cons, List.mem_singleton, List.not_mem_nil, or_false] at hk1
                 rcases hk1 with rfl | rfl | rfl | rfl | rfl | rfl | rfl <;> decide)
))

/-- C3: the screenshot configuration has width 1280 unless `width` is bound to a
floating-point value, height 720 unless `height` is, and fullPage false unless
`full_page` is bound to a boolean; nil and empty options give (1280, 720, false). -/
theorem screenshot_defaults (indefinite : Float64 → Int) (options : OptionsMap) :
    ((¬ ∃ f, options.get? "width" = some (Dyn.num f)) →
      (screenshotOptions indefinite options).width = 1280) ∧
    ((¬ ∃ f, options.get? "height" = some (Dyn.num f)) →
      (screenshotOptions indefinite options).height = 720) ∧
    ((¬ ∃ b, options.get? "full_page" = some (Dyn.bool b)) →
      (screenshotOptions indefinite options).fullPage = false) ∧
    screenshotOptions indefinite none = { width := 1280, height := 720, fullPage := false } ∧
    screenshotOptions indefinite (some []) =
      { width := 1280, height := 720, fullPage := false } := by
  refine ⟨?_, ?_, ?_, rfl, rfl⟩
  · intro h
    cases options with
    | none => rfl
    | some m =>
      simp only [OptionsMap.get?] at h
      simp only [screenshotOptions, GoMap.index]
      cases hl : m.lookup "width" with
      | none => rfl
      | some v =>
        cases v with
        | num f => exact absurd ⟨f, hl⟩ h
        | _ => rfl
  · intro h
    cases options with
    | none => rfl
    | some m =>
      simp only [OptionsMap.get?] at h
      simp only [screenshotOptions, GoMap.index]
      cases hl : m.lookup "height" with
      | none => rfl
      | some v =>
        cases v with
        | num f => exact absurd ⟨f, hl⟩ h
        | _ => rfl
  · intro h
    cases options with
    | none => rfl
    | some m =>
      simp only [OptionsMap.get?] at h
      simp only [screenshotOptions, GoMap.index]
      cases hl : m.lookup "full_page" with
      | none => rfl
      | some v =>
        cases v with
        | bool b => exact absurd ⟨b, hl⟩ h
        | _ => rfl

/-- C3, on an example: a `width` given as a string and no `height` leave 1280 by 720. -/
theorem screenshot_defaults_witness :
    (screenshotOptions amd64Indefinite (some [("width", Dyn.str "wide")])).width = 1280 ∧
    (screenshotOptions amd64Indefinite (some [("width", Dyn.str "wide")])).height = 720 :=
  ⟨(screenshot_defaults amd64Indefinite (some [("width", Dyn.str "wide")])).1
      (by
        rintro ⟨f, hf⟩
        simp [OptionsMap.get?, List.lookup] at hf),
   (screenshot_defaults amd64Indefinite (some [("width", Dyn.str "wide")])).2.1
      (by
        rintro ⟨f, hf⟩
        simp [OptionsMap.get?, List.lookup] at hf)⟩

theorem floor_magnitude (mant : Nat) (exp : Int) :
    ⌊(mant : ℚ) * (2 : ℚ) ^ exp⌋ = (truncMagnitude mant exp : Int) := by
  cases exp with
  | ofNat k =>
    have h : (mant : ℚ) * (2 : ℚ) ^ (Int.ofNat k) = ((mant * 2 ^ k : ℕ) : ℚ) := by
      push_cast
      rw [Int.ofNat_eq_coe, zpow_natCast]
    rw [h, Int.floor_natCast]
    rfl
  | negSucc k =>
    have h : (mant : ℚ) * (2 : ℚ) ^ (Int.negSucc k) = (mant : ℚ) / ((2 ^ (k + 1) : ℕ) : ℚ) := by
      rw [zpow_negSucc, div_eq_mul_inv]
      push_cast
      rfl
    rw [h, Rat.floor_natCast_div_natCast]
    rfl

theorem magnitude_nonneg (mant : Nat) (exp : Int) : (0 : ℚ) ≤ (mant : ℚ) * (2 : ℚ) ^ exp :=
  mul_nonneg (Nat.cast_nonneg mant) (zpow_nonneg (by norm_num) exp)

theorem roundTowardZero_finite (neg : Bool) (mant : Nat) (exp : Int) :
    roundTowardZero (finiteValue neg mant exp) =
      if neg then -(truncMagnitude mant exp : Int) else (truncMagnitude mant exp : Int) := by
  have hx := magnitude_nonneg mant exp
  unfold finiteValue
  cases neg with
  | false =>
    simp only [Bool.false_eq_true, if_false, one_mul]
    unfold roundTowardZero
    rw [if_pos hx, floor_magnitude]
  | true =>
    simp only [if_true]
    have e : (-1 : ℚ) * (mant : ℚ) * (2 : ℚ) ^ exp = -((mant : ℚ) * (2 : ℚ) ^ exp) := by ring
    rw [e]
    unfold roundTowardZero
    by_cases h0 : (0 : ℚ) ≤ -((mant : ℚ) * (2 : ℚ) ^ exp)
    · have hz : (mant : ℚ) * (2 : ℚ) ^ exp = 0 := le_antisymm (by linarith) hx
      rw [if_pos h0, ← floor_magnitude, hz]
      simp
    · rw [if_neg h0, Int.ceil_neg, floor_magnitude]

theorem int64OfFloat64_inRange (indefinite : Float64 → Int) (w : Float64) (q : ℚ)
    (hq : w.toRat? = some q)
    (hr : -(2 : Int) ^ 63 ≤ roundTowardZero q ∧ roundTowardZero q < (2 : Int) ^ 63) :
    int64OfFloat64 indefinite w = roundTowardZero q := by
  cases w with
  | finite neg mant exp =>
    simp only [Float64.toRat?, Option.some.injEq] at hq
    subst hq
    rw [roundTowardZero_finite] at hr ⊢
    simp only [int64OfFloat64]
    rw [if_pos hr]
  | inf neg => simp [Float64.toRat?] at hq
  | nan => simp [Float64.toRat?] at hq

theorem emulateViewport_sent {σ : Type} (indefinite : Float64 → Int) (eng : Engine σ)
    (html : String) (options : OptionsMap) (w : World σ) (s : Nat) (a b : Int)
    (h : Event.ran s (Op.emulateViewport a b) ∈
      (htmlToScreenshot indefinite eng html options w).2.log.drop w.log.length) :
    a = (screenshotOptions indefinite options).width ∧
      b = (screenshotOptions indefinite options).height := by
  obtain ⟨ops, hP, hlog, _⟩ := htmlToScreenshot_record indefinite eng html options w
  rw [hlog, List.drop_left] at h
  simp only [callEvents, List.mem_cons, List.mem_append, List.mem_map, List.mem_singleton,
    List.not_mem_nil, or_false, reduceCtorEq, false_or] at h
  obtain ⟨op, hop, heq⟩ := h
  injection heq with _ hopq
  subst hopq
  rcases hP _ hop with h1 | h1 | h1 | h1 | ⟨_, h1⟩ | ⟨_, h1⟩ | ⟨_, h1⟩
  · exact absurd h1 (by simp)
  · injection h1 with ha hb
    exact ⟨ha, hb⟩
  · exact absurd h1 (by simp)
  · exact absurd h1 (by simp)
  · exact absurd h1 (by simp)
  · exact absurd h1 (by simp)
  · exact absurd h1 (by simp)

/-- C4, as stated, fails: `width = 2^63` is a finite float64 whose value with the
fraction discarded is `2^63`, and whatever the platform does, the `int64` width is
not `2^63`. -/
theorem screenshot_truncation_counterexample :
    Float64.toRat? (Float64.finite false 1 63) = some ((2 : ℚ) ^ 63) ∧
    roundTowardZero ((2 : ℚ) ^ 63) = (2 : Int) ^ 63 ∧
    (∀ indefinite : Float64 → Int,
      (screenshotOptions indefinite
        (some [("width", Dyn.num (Float64.finite false 1 63))])).width ≠
      roundTowardZero ((2 : ℚ) ^ 63)) ∧
    (screenshotOptions amd64Indefinite
        (some [("width", Dyn.num (Float64.finite false 1 63))])).width = -(2 : Int) ^ 63 := by
  have hrt : roundTowardZero ((2 : ℚ) ^ 63) = (2 : Int) ^ 63 := by
    unfold roundTowardZero
    rw [if_pos (by positivity)]
    have : ((2 : ℚ) ^ 63) = (((2 : Int) ^ 63 : Int) : ℚ) := by norm_num
    rw [this, Int.floor_intCast]
  refine ⟨?_, hrt, ?_, ?_⟩
  · simp [Float64.toRat?, finiteValue]
    norm_num
  · intro indefinite
    rw [hrt]
    have hw : (screenshotOptions indefinite
        (some [("width", Dyn.num (Float64.finite false 1 63))])).width =
        wrapInt64 (indefinite (Float64.finite false 1 63)) := by
      simp [screenshotOptions, GoMap.index, List.lookup, Dyn.asFloat64, int64OfFloat64,
        truncMagnitude]
    rw [hw]
    unfold wrapInt64
    omega
  · simp [screenshotOptions, GoMap.index, List.lookup, Dyn.asFloat64, int64OfFloat64,
      truncMagnitude, amd64Indefinite, wrapInt64]

/-- C5: `convertToPDFA` returns its input with a nil error, and `handleConvertPDFA`
answers every request that binds with status 200, content type `application/pdf` and
the bytes of the `pdf` string as body. -/
theorem convert_passthrough {σ : Type} (b : Bytes) (o : OptionsMap)
    (decoded : Except GoError ConvertRequest) (w : World σ) :
    convertToPDFA b o = (b, none) ∧
    (∀ req, shouldBindJSON "ConvertRequest" "PDF" ConvertRequest.PDF decoded = Except.ok req →
      handleConvertPDFA decoded w =
        (Response.data 200 "application/pdf" (bytesOfString req.PDF), w)) := by
  refine ⟨rfl, ?_⟩
  intro req h
  simp [handleConvertPDFA, h, convertToPDFA]

/-- C5, on an example: the body `%PDF-1.7` comes back as its eight bytes. -/
theorem convert_passthrough_witness :
    handleConvertPDFA (Except.ok { PDF := "%PDF-1.7", Options := none }) World.initial =
      (Response.data 200 "application/pdf" [37, 80, 68, 70, 45, 49, 46, 55], World.initial) :=
  (convert_passthrough [] none (Except.ok { PDF := "%PDF-1.7", Options := none })
    World.initial).2 { PDF := "%PDF-1.7", Options := none } (by rfl)

/-- C10, evaluated: for `pdf = "JVBERg=="`, the base64 text of the four bytes `%PDF`,
`handleConvertPDFA` answers with the eight bytes of the text itself, not with the
four decoded bytes. -/
theorem convert_keeps_base64_text :
    handleConvertPDFA (Except.ok { PDF := "JVBERg==", Options := none }) World.initial =
      (Response.data 200 "application/pdf" [74, 86, 66, 69, 82, 103, 61, 61], World.initial) ∧
    (handleConvertPDFA (Except.ok { PDF := "JVBERg==", Options := none })
      World.initial).1.artifact ≠ some [37, 80, 68, 70] := by
  constructor
  · rfl
  · decide

/-- C6: when binding fails, `handlePrint`, `handlePrintPDFA` and `handleScreenshot` answer
400 (so not 500) with the message of the binding error as `error` field, and leave the
world as it was: no session is created and no request reaches the engine.  A body
without `html` fails binding with the message of the validator, which is not empty;
a decoder error is passed on with its own message, so the `error` field is not
empty as long as the messages of the decoder are not. -/
theorem missing_html_is_client_error {σ : Type} (dflt : PrintToPDFParams)
    (indefinite : Float64 → Int) (eng : Engine σ) (w : World σ) :
    (∀ decoded err,
      shouldBindJSON "PrintRequest" "HTML" PrintRequest.HTML decoded = Except.error err →
      handlePrint dflt eng decoded w = (Response.json 400 [("error", err.message)], w) ∧
      handlePrintPDFA dflt eng decoded w = (Response.json 400 [("error", err.message)], w) ∧
      (handlePrint dflt eng decoded w).1.status ≠ 500 ∧
      (handlePrintPDFA dflt eng decoded w).1.status ≠ 500) ∧
    (∀ decoded err,
      shouldBindJSON "ScreenshotRequest" "HTML" ScreenshotRequest.HTML decoded =
        Except.error err →
      handleScreenshot indefinite eng decoded w =
        (Response.json 400 [("error", err.message)], w) ∧
      (handleScreenshot indefinite eng decoded w).1.status ≠ 500) ∧
    (∀ o, shouldBindJSON "PrintRequest" "HTML" PrintRequest.HTML
        (Except.ok { HTML := "", Options := o }) =
      Except.error (requiredError "PrintRequest" "HTML")) ∧
    (∀ o, shouldBindJSON "ScreenshotRequest" "HTML" ScreenshotRequest.HTML
        (Except.ok { HTML := "", Options := o }) =
      Except.error (requiredError "ScreenshotRequest" "HTML")) ∧
    (∀ e, shouldBindJSON "PrintRequest" "HTML" PrintRequest.HTML (Except.error e) =
      Except.error e) ∧
    (∀ e, shouldBindJSON "ScreenshotRequest" "HTML" ScreenshotRequest.HTML (Except.error e) =
      Except.error e) ∧
    (requiredError "PrintRequest" "HTML").message ≠ "" ∧
    (requiredError "ScreenshotRequest" "HTML").message ≠ "" ∧
    (∀ decoded err,
      shouldBindJSON "PrintRequest" "HTML" PrintRequest.HTML decoded = Except.error err →
      (∀ e, decoded = Except.error e → e.message ≠ "") → err.message ≠ "") ∧
    (∀ decoded err,
      shouldBindJSON "ScreenshotRequest" "HTML" ScreenshotRequest.HTML decoded =
        Except.error err →
      (∀ e, decoded = Except.error e → e.message ≠ "") → err.message ≠ "") := by
  refine ⟨?_, ?_, fun o => rfl, fun o => rfl, fun e => rfl, fun e => rfl, by decide, by decide,
    ?_, ?_⟩
  · intro decoded err h
    simp [handlePrint, handlePrintPDFA, h, Response.status]
  · intro decoded err h
    simp [handleScreenshot, h, Response.status]
  · intro decoded err h hdec
    cases decoded with
    | error e =>
      simp only [shouldBindJSON, Except.error.injEq] at h
      exact h ▸ hdec e rfl
    | ok req =>
      simp only [shouldBindJSON] at h
      split at h
      · simp only [Except.error.injEq] at h
        rw [← h]
        decide
      · simp at h
  · intro decoded err h hdec
    cases decoded with
    | error e =>
      simp only [shouldBindJSON, Except.error.injEq] at h
      exact h ▸ hdec e rfl
    | ok req =>
      simp only [shouldBindJSON] at h
      split at h
      · simp only [Except.error.injEq] at h
        rw [← h]
        decide
      · simp at h

/-- C6, on an example: a print request without `html` is answered 400 with the
message of the validator, and the record of sessions stays empty. -/
theorem missing_html_is_client_error_witness :
    handlePrint zeroPrintToPDFParams okEngine
        (Except.ok { HTML := "", Options := none }) World.initial =
      (Response.json 400 [("error", (requiredError "PrintRequest" "HTML").message)],
        World.initial) :=
  ((missing_html_is_client_error zeroPrintToPDFParams amd64Indefinite okEngine
    World.initial).1 (Except.ok { HTML := "", Options := none })
    (requiredError "PrintRequest" "HTML") (by rfl)).1

theorem callEvents_count (s : Nat) (ops : List Op) :
    (callEvents s ops).count (Event.released s) = 1 := by
  have h : (List.map (Event.ran s) ops).count (Event.released s) = 0 := by
    rw [List.count_eq_zero]
    intro hmem
    obtain ⟨op, _, hop⟩ := List.mem_map.mp hmem
    cases hop
  simp [callEvents, List.count_cons, List.count_append, h]

theorem callEvents_session (s : Nat) (ops : List Op) :
    ∀ ev ∈ callEvents s ops, ev.session = s := by
  intro ev hev
  simp only [callEvents, List.mem_cons, List.mem_append, List.mem_map, List.mem_singleton,
    List.not_mem_nil, or_false] at hev
  rcases hev with (rfl | rfl | ⟨op, _, rfl⟩) | rfl | rfl <;> rfl

theorem fresh_step {σ : Type} (w w1 : World σ) (ops : List Op)
    (hlog : w1.log = w.log ++ callEvents w.next ops) (hnext : w1.next = w.next + 1)
    (hf : w.Fresh) : w1.Fresh ∧ ∀ ev ∈ w.log, ev.session ≠ w.next := by
  constructor
  · intro ev hev
    rw [hlog] at hev
    rw [hnext]
    rcases List.mem_append.mp hev with h | h
    · exact Nat.lt_succ_of_lt (hf ev h)
    · rw [callEvents_session _ _ ev h]
      exact Nat.lt_succ_self _
  · intro ev hev
    exact Nat.ne_of_lt (hf ev hev)

/-- C7: whatever the engine answers (success, an error in content injection, an error
in the render or capture step, a deadline error), a call of `htmlToPDF` or of
`htmlToScreenshot` appends to the record, for the fresh session it creates: its
creation, its deadline of 30 seconds, the requests it ran, the cancel of the timeout,
and last the release of the session.  The release occurs exactly once among the events
of the call, all of which are about that session; the session was used by no earlier
call, and the next call gets another one. -/
theorem session_released_once {σ : Type} (dflt : PrintToPDFParams)
    (indefinite : Float64 → Int) (eng : Engine σ) (html : String) (options : OptionsMap)
    (w : World σ) :
    ((∃ ops : List Op, (htmlToPDF dflt eng html options w).2.log =
        w.log ++ (Event.created w.next :: Event.deadlineSet w.next 30 ::
          ops.map (Event.ran w.next) ++ [Event.timeoutCancelled w.next, Event.released w.next])) ∧
      ((htmlToPDF dflt eng html options w).2.log.drop w.log.length).count
        (Event.released w.next) = 1 ∧
      (∀ ev ∈ (htmlToPDF dflt eng html options w).2.log.drop w.log.length,
        ev.session = w.next) ∧
      (htmlToPDF dflt eng html options w).2.next = w.next + 1 ∧
      (w.Fresh → (htmlToPDF dflt eng html options w).2.Fresh ∧
        ∀ ev ∈ w.log, ev.session ≠ w.next)) ∧
    ((∃ ops : List Op, (htmlToScreenshot indefinite eng html options w).2.log =
        w.log ++ (Event.created w.next :: Event.deadlineSet w.next 30 ::
          ops.map (Event.ran w.next) ++ [Event.timeoutCancelled w.next, Event.released w.next])) ∧
      ((htmlToScreenshot indefinite eng html options w).2.log.drop w.log.length).count
        (Event.released w.next) = 1 ∧
      (∀ ev ∈ (htmlToScreenshot indefinite eng html options w).2.log.drop w.log.length,
        ev.session = w.next) ∧
      (htmlToScreenshot indefinite eng html options w).2.next = w.next + 1 ∧
      (w.Fresh → (htmlToScreenshot indefinite eng html options w).2.Fresh ∧
        ∀ ev ∈ w.log, ev.session ≠ w.next)) := by
  constructor
  · obtain ⟨ops, _, hlog, hnext⟩ := htmlToPDF_record dflt eng html options w
    refine ⟨⟨ops, hlog⟩, ?_, ?_, hnext, fun hf => fresh_step w _ ops hlog hnext hf⟩
    · rw [hlog, List.drop_left]
      exact callEvents_count _ _
    · rw [hlog, List.drop_left]
      exact callEvents_session _ _
  · obtain ⟨ops, _, hlog, hnext⟩ := htmlToScreenshot_record indefinite eng html options w
    refine ⟨⟨ops, hlog⟩, ?_, ?_, hnext, fun hf => fresh_step w _ ops hlog hnext hf⟩
    · rw [hlog, List.drop_left]
      exact callEvents_count _ _
    · rw [hlog, List.drop_left]
      exact callEvents_session _ _

/-- C7, on an example: after one `htmlToPDF` call from the initial world the record is
fresh again, and the call took session 0, which the empty record never mentions. -/
theorem session_released_once_witness :
    (htmlToPDF zeroPrintToPDFParams okEngine "<p>" none World.initial).2.Fresh ∧
    (∀ ev ∈ World.initial.log, ev.session ≠ World.initial.next) :=
  (session_released_once zeroPrintToPDFParams amd64Indefinite okEngine "<p>" none
    World.initial).1.2.2.2.2 (by intro ev hev; cases hev)

/-- The record of two calls in a row on an engine that answers everything: sessions
0 and 1, each created once, used, and released once at the end of its call. -/
theorem two_calls_record :
    (htmlToScreenshot amd64Indefinite okEngine "<p>" none
      (htmlToPDF zeroPrintToPDFParams okEngine "<p>" none World.initial).2).2.log =
      [Event.created 0, Event.deadlineSet 0 30, Event.ran 0 Op.start,
        Event.ran 0 (Op.navigate "about:blank"), Event.ran 0 Op.getFrameTree,
        Event.ran 0 (Op.setDocumentContent "F" "<p>"),
        Event.ran 0 (Op.printToPDF zeroPrintToPDFParams),
        Event.timeoutCancelled 0, Event.released 0,
        Event.created 1, Event.deadlineSet 1 30, Event.ran 1 Op.start,
        Event.ran 1 (Op.emulateViewport 1280 720),
        Event.ran 1 (Op.navigate "about:blank"), Event.ran 1 Op.getFrameTree,
        Event.ran 1 (Op.setDocumentContent "F" "<p>"), Event.ran 1 Op.captureScreenshot,
        Event.timeoutCancelled 1, Event.released 1] := by
  rfl

theorem runTasks_append {σ : Type} (ctx : Ctx) (xs ys : List (Action σ))
    (st : World σ × Bytes) :
    runTasks ctx (xs ++ ys) st =
      match runTasks ctx xs st with
      | (some err, st1) => (some err, st1)
      | (none, st1) => runTasks ctx ys st1 := by
  induction xs generalizing st with
  | nil => simp [runTasks]
  | cons a rest ih =>
    simp only [List.cons_append, runTasks]
    rcases ha : a ctx st with ⟨r, st1⟩
    cases r with
    | some err => rfl
    | none => exact ih st1

theorem runTasks_single {σ : Type} (ctx : Ctx) (a : Action σ) (st : World σ × Bytes) :
    (runTasks ctx [a] st).1 = (a ctx st).1 := by
  simp only [runTasks]
  rcases ha : a ctx st with ⟨r, st1⟩
  cases r <;> rfl

theorem pdfRun_of_injectionError {σ : Type} (dflt : PrintToPDFParams) (eng : Engine σ)
    (html : String) (options : OptionsMap) (w : World σ) (e : GoError)
    (h : pdfInjectionError eng html w = some e) :
    (pdfRun dflt eng html options w).1 = some e := by
  unfold pdfInjectionError at h
  unfold pdfRun chromedpRun
  rcases hs : request (callCtx w) Op.start eng.start (opened w) with ⟨r, w1⟩
  rw [hs] at h
  simp only [hs]
  cases r with
  | some err => simp at h
  | none =>
    simp only at h ⊢
    have happ := runTasks_append (callCtx w) [navigate eng "about:blank", setContent eng html]
      [printAction eng (buildPrintParams dflt options)] (w1, [])
    simp only [List.cons_append, List.nil_append] at happ
    rcases hr : runTasks (callCtx w) [navigate eng "about:blank", setContent eng html]
      (w1, []) with ⟨r2, st2⟩
    rw [hr] at h happ
    simp only at h
    subst h
    exact congrArg Prod.fst happ

theorem pdfRun_of_renderError {σ : Type} (dflt : PrintToPDFParams) (eng : Engine σ)
    (html : String) (options : OptionsMap) (w : World σ) (e : GoError)
    (h : pdfRenderError dflt eng html options w = some e) :
    (pdfRun dflt eng html options w).1 = some e := by
  unfold pdfRenderError at h
  unfold pdfRun chromedpRun
  rcases hs : request (callCtx w) Op.start eng.start (opened w) with ⟨r, w1⟩
  rw [hs] at h
  simp only [hs]
  cases r with
  | some err => simp at h
  | none =>
    simp only at h ⊢
    have happ := runTasks_append (callCtx w) [navigate eng "about:blank", setContent eng html]
      [printAction eng (buildPrintParams dflt options)] (w1, [])
    simp only [List.cons_append, List.nil_append] at happ
    rcases hr : runTasks (callCtx w) [navigate eng "about:blank", setContent eng html]
      (w1, []) with ⟨r2, st2⟩
    rw [hr] at h happ
    cases r2 with
    | some err => simp at h
    | none =>
      simp only at h happ
      have h1 := congrArg Prod.fst happ
      rw [runTasks_single, h] at h1
      exact h1

theorem runTasks_prefix_fails {σ : Type} (ctx : Ctx) (xs ys : List (Action σ))
    (st : World σ × Bytes) (e : GoError) (h : (runTasks ctx xs st).1 = some e) :
    (runTasks ctx (xs ++ ys) st).1 = some e := by
  rw [runTasks_append]
  rcases hr : runTasks ctx xs st with ⟨r, st1⟩
  rw [hr] at h
  simp only at h
  subst h
  rfl

theorem runTasks_prefix_ok {σ : Type} (ctx : Ctx) (xs ys : List (Action σ))
    (st st1 : World σ × Bytes) (h : runTasks ctx xs st = (none, st1)) :
    runTasks ctx (xs ++ ys) st = runTasks ctx ys st1 := by
  rw [runTasks_append, h]

theorem screenshotTasks_eq {σ : Type} (indefinite : Float64 → Int) (eng : Engine σ)
    (html : String) (options : OptionsMap) :
    screenshotTasks indefinite eng html options =
      [emulateViewport eng (screenshotOptions indefinite options).width
        (screenshotOptions indefinite options).height] ++
      ([navigate eng "about:blank", setContent eng html] ++
        [if (screenshotOptions indefinite options).fullPage then fullScreenshot eng 100
          else captureScreenshot eng]) := by
  cases hfp : (screenshotOptions indefinite options).fullPage <;>
    simp [screenshotTasks, hfp]

theorem screenshotRun_of_injectionError {σ : Type} (indefinite : Float64 → Int)
    (eng : Engine σ) (html : String) (options : OptionsMap) (w : World σ) (e : GoError)
    (h : screenshotInjectionError indefinite eng html options w = some e) :
    (screenshotRun indefinite eng html options w).1 = some e := by
  unfold screenshotInjectionError at h
  unfold screenshotRun chromedpRun
  rcases hs : request (callCtx w) Op.start eng.start (opened w) with ⟨r, w1⟩
  rw [hs] at h
  simp only [hs]
  cases r with
  | some err => simp at h
  | none =>
    simp only at h ⊢
    rcases hr : runTasks (callCtx w)
      [emulateViewport eng (screenshotOptions indefinite options).width
        (screenshotOptions indefinite options).height] (w1, []) with ⟨r2, st2⟩
    rw [hr] at h
    cases r2 with
    | some err => simp at h
    | none =>
      simp only at h
      rw [screenshotTasks_eq]
      have h1 := runTasks_prefix_ok (callCtx w) _
        ([navigate eng "about:blank", setContent eng html] ++
          [if (screenshotOptions indefinite options).fullPage then fullScreenshot eng 100
            else captureScreenshot eng]) (w1, []) st2 hr
      have h2 := runTasks_prefix_fails (callCtx w) _
        [if (screenshotOptions indefinite options).fullPage then fullScreenshot eng 100
          else captureScreenshot eng] st2 e h
      rw [← h1] at h2
      exact h2

theorem screenshotRun_of_renderError {σ : Type} (indefinite : Float64 → Int)
    (eng : Engine σ) (html : String) (options : OptionsMap) (w : World σ) (e : GoError)
    (h : screenshotRenderError indefinite eng html options w = some e) :
    (screenshotRun indefinite eng html options w).1 = some e := by
  unfold screenshotRenderError at h
  unfold screenshotRun chromedpRun
  rcases hs : request (callCtx w) Op.start eng.start (opened w) with ⟨r, w1⟩
  rw [hs] at h
  simp only [hs]
  cases r with
  | some err => simp at h
  | none =>
    simp only at h ⊢
    rcases hr : runTasks (callCtx w)
      [emulateViewport eng (screenshotOptions indefinite options).width
        (screenshotOptions indefinite options).height,
        navigate eng "about:blank", setContent eng html] (w1, []) with ⟨r2, st2⟩
    rw [hr] at h
    cases r2 with
    | some err => simp at h
    | none =>
      simp only at h
      rw [screenshotTasks_eq]
      have h1 := runTasks_prefix_ok (callCtx w)
        [emulateViewport eng (screenshotOptions indefinite options).width
          (screenshotOptions indefinite options).height,
          navigate eng "about:blank", setContent eng html]
        [if (screenshotOptions indefinite options).fullPage then fullScreenshot eng 100
          else captureScreenshot eng] (w1, []) st2 hr
      simp only [List.cons_append, List.nil_append] at h1 ⊢
      rw [h1, runTasks_single]
      cases hfp : (screenshotOptions indefinite options).fullPage <;>
        simpa [hfp] using h

theorem finish_of_error {σ : Type} (s : Nat) (context : String)
    (r : Option GoError × (World σ × Bytes)) (e : GoError) (h : r.1 = some e) :
    (finish s context r).1 = ([], some (errorfW context e)) := by
  unfold finish
  rw [h]

theorem finish_of_ok {σ : Type} (s : Nat) (context : String)
    (r : Option GoError × (World σ × Bytes)) (h : r.1 = none) :
    (finish s context r).1 = (r.2.2, none) := by
  unfold finish
  rw [h]

/-- C8, as stated, fails: the same engine error `boom`, raised once by the frame-tree
lookup (content injection) and once by the print or capture request (rendering),
comes back from `htmlToPDF`, and from `htmlToScreenshot`, as one and the same error. -/
theorem error_phase_counterexample :
    pdfInjectionError (injectionFailEngine (GoError.plain "boom")) "<p>" World.initial =
      some (GoError.plain "boom") ∧
    pdfRenderError zeroPrintToPDFParams (renderFailEngine (GoError.plain "boom")) "<p>" none
      World.initial = some (GoError.plain "boom") ∧
    (htmlToPDF zeroPrintToPDFParams (injectionFailEngine (GoError.plain "boom")) "<p>" none
      World.initial).1 =
    (htmlToPDF zeroPrintToPDFParams (renderFailEngine (GoError.plain "boom")) "<p>" none
      World.initial).1 ∧
    screenshotInjectionError amd64Indefinite (injectionFailEngine (GoError.plain "boom")) "<p>"
      none World.initial = some (GoError.plain "boom") ∧
    screenshotRenderError amd64Indefinite (renderFailEngine (GoError.plain "boom")) "<p>" none
      World.initial = some (GoError.plain "boom") ∧
    (htmlToScreenshot amd64Indefinite (injectionFailEngine (GoError.plain "boom")) "<p>" none
      World.initial).1 =
    (htmlToScreenshot amd64Indefinite (renderFailEngine (GoError.plain "boom")) "<p>" none
      World.initial).1 := by
  refine ⟨rfl, rfl, rfl, rfl, rfl, rfl⟩

/-- C8, amended: for every engine error `e`, `htmlToPDF` returns the same error, `e`
wrapped with the context `failed to generate PDF: `, whether `e` occurs during content
injection or during the rendering step; `htmlToScreenshot` likewise with
`failed to capture screenshot: `.  The context names the renderer, not the phase. -/
theorem error_context_names_renderer {σ : Type} (dflt : PrintToPDFParams)
    (indefinite : Float64 → Int) (eng1 eng2 : Engine σ) (html : String) (options : OptionsMap)
    (w1 w2 : World σ) (e : GoError) :
    (pdfInjectionError eng1 html w1 = some e →
      pdfRenderError dflt eng2 html options w2 = some e →
      (htmlToPDF dflt eng1 html options w1).1 =
        ([], some (errorfW "failed to generate PDF: " e)) ∧
      (htmlToPDF dflt eng2 html options w2).1 =
        ([], some (errorfW "failed to generate PDF: " e))) ∧
    (screenshotInjectionError indefinite eng1 html options w1 = some e →
      screenshotRenderError indefinite eng2 html options w2 = some e →
      (htmlToScreenshot indefinite eng1 html options w1).1 =
        ([], some (errorfW "failed to capture screenshot: " e)) ∧
      (htmlToScreenshot indefinite eng2 html options w2).1 =
        ([], some (errorfW "failed to capture screenshot: " e))) := by
  constructor
  · intro h1 h2
    rw [htmlToPDF_eq, htmlToPDF_eq]
    exact ⟨finish_of_error _ _ _ e (pdfRun_of_injectionError dflt eng1 html options w1 e h1),
      finish_of_error _ _ _ e (pdfRun_of_renderError dflt eng2 html options w2 e h2)⟩
  · intro h1 h2
    rw [htmlToScreenshot_eq, htmlToScreenshot_eq]
    exact ⟨finish_of_error _ _ _ e
        (screenshotRun_of_injectionError indefinite eng1 html options w1 e h1),
      finish_of_error _ _ _ e
        (screenshotRun_of_renderError indefinite eng2 html options w2 e h2)⟩

/-- C8, amended, on the example: a deadline error in the frame-tree lookup and in the
print request both come back as `failed to generate PDF: context deadline exceeded`. -/
theorem error_context_names_renderer_witness :
    (htmlToPDF zeroPrintToPDFParams
      (injectionFailEngine (GoError.plain "context deadline exceeded")) "<p>" none
      World.initial).1 =
      ([], some (GoError.wrap "failed to generate PDF: context deadline exceeded"
        (GoError.plain "context deadline exceeded"))) ∧
    (htmlToPDF zeroPrintToPDFParams
      (renderFailEngine (GoError.plain "context deadline exceeded")) "<p>" none
      World.initial).1 =
      ([], some (GoError.wrap "failed to generate PDF: context deadline exceeded"
        (GoError.plain "context deadline exceeded"))) :=
  (error_context_names_renderer zeroPrintToPDFParams amd64Indefinite
    (injectionFailEngine (GoError.plain "context deadline exceeded"))
    (renderFailEngine (GoError.plain "context deadline exceeded")) "<p>" none
    World.initial World.initial (GoError.plain "context deadline exceeded")).1
    (by rfl) (by rfl)

theorem chromedpRun_ok {σ : Type} (eng : Engine σ) (ctx : Ctx) (actions : List (Action σ))
    (st : World σ × Bytes) (h : (chromedpRun eng ctx actions st).1 = none) :
    ∃ w1, chromedpRun eng ctx actions st = runTasks ctx actions (w1, st.2) := by
  unfold chromedpRun at h ⊢
  rcases hs : request ctx Op.start eng.start st.1 with ⟨r, w1⟩
  rw [hs] at h
  cases r with
  | some err => simp at h
  | none => exact ⟨w1, rfl⟩

theorem runTasks_last_ok {σ : Type} (ctx : Ctx) (xs : List (Action σ)) (a : Action σ)
    (st : World σ × Bytes) (h : (runTasks ctx (xs ++ [a]) st).1 = none) :
    ∃ st1, runTasks ctx (xs ++ [a]) st = a ctx st1 ∧ (a ctx st1).1 = none := by
  rw [runTasks_append] at h ⊢
  rcases hr : runTasks ctx xs st with ⟨r, st1⟩
  rw [hr] at h
  cases r with
  | some err => simp at h
  | none =>
    simp only at h ⊢
    refine ⟨st1, ?_, ?_⟩
    · simp only [runTasks]
      rcases ha : a ctx st1 with ⟨r2, st2⟩
      cases r2 <;> rfl
    · rw [runTasks_single] at h
      exact h

theorem printAction_ok {σ : Type} (eng : Engine σ) (p : PrintToPDFParams) (ctx : Ctx)
    (st : World σ × Bytes) (h : (printAction eng p ctx st).1 = none) :
    ∃ s, (eng.printToPDF p s).1 = Except.ok (printAction eng p ctx st).2.2 := by
  refine ⟨st.1.eng, ?_⟩
  unfold printAction request at h ⊢
  rcases hr : eng.printToPDF p st.1.eng with ⟨r, s1⟩
  rw [hr] at h
  cases r with
  | error err => simp at h
  | ok buf => simp [hr]

theorem captureScreenshot_ok {σ : Type} (eng : Engine σ) (ctx : Ctx)
    (st : World σ × Bytes) (h : (captureScreenshot eng ctx st).1 = none) :
    ∃ s, (eng.captureScreenshot s).1 = Except.ok (captureScreenshot eng ctx st).2.2 := by
  refine ⟨st.1.eng, ?_⟩
  unfold captureScreenshot request at h ⊢
  rcases hr : eng.captureScreenshot st.1.eng with ⟨r, s1⟩
  rw [hr] at h
  cases r with
  | error err => simp at h
  | ok buf => simp [hr]

theorem fullScreenshot_ok {σ : Type} (eng : Engine σ) (quality : Int) (ctx : Ctx)
    (st : World σ × Bytes) (h : (fullScreenshot eng quality ctx st).1 = none) :
    ∃ s, (eng.fullScreenshot quality s).1 =
      Except.ok (fullScreenshot eng quality ctx st).2.2 := by
  refine ⟨st.1.eng, ?_⟩
  unfold fullScreenshot request at h ⊢
  rcases hr : eng.fullScreenshot quality st.1.eng with ⟨r, s1⟩
  rw [hr] at h
  cases r with
  | error err => simp at h
  | ok buf => simp [hr]

theorem pdfRun_ok_buffer {σ : Type} (dflt : PrintToPDFParams) (eng : Engine σ) (html : String)
    (options : OptionsMap) (w : World σ) (h : (pdfRun dflt eng html options w).1 = none) :
    ∃ s, (eng.printToPDF (buildPrintParams dflt options) s).1 =
      Except.ok (pdfRun dflt eng html options w).2.2 := by
  unfold pdfRun at h ⊢
  obtain ⟨w1, hw1⟩ := chromedpRun_ok eng _ _ _ h
  rw [hw1] at h ⊢
  obtain ⟨st1, hst1, hok⟩ := runTasks_last_ok (callCtx w)
    [navigate eng "about:blank", setContent eng html]
    (printAction eng (buildPrintParams dflt options)) _ h
  simp only [List.cons_append, List.nil_append] at hst1
  rw [hst1]
  exact printAction_ok eng _ _ st1 hok

theorem screenshotRun_ok_buffer {σ : Type} (indefinite : Float64 → Int) (eng : Engine σ)
    (html : String) (options : OptionsMap) (w : World σ)
    (h : (screenshotRun indefinite eng html options w).1 = none) :
    ∃ s, (if (screenshotOptions indefinite options).fullPage then eng.fullScreenshot 100 s
        else eng.captureScreenshot s).1 =
      Except.ok (screenshotRun indefinite eng html options w).2.2 := by
  unfold screenshotRun at h ⊢
  obtain ⟨w1, hw1⟩ := chromedpRun_ok eng _ _ _ h
  rw [hw1] at h ⊢
  cases hfp : (screenshotOptions indefinite options).fullPage with
  | false =>
    have ht : screenshotTasks indefinite eng html options =
        [emulateViewport eng (screenshotOptions indefinite options).width
          (screenshotOptions indefinite options).height,
          navigate eng "about:blank", setContent eng html] ++ [captureScreenshot eng] := by
      simp [screenshotTasks, hfp]
    rw [ht] at h ⊢
    obtain ⟨st1, hst1, hok⟩ := runTasks_last_ok (callCtx w) _ _ _ h
    rw [hst1]
    simpa using captureScreenshot_ok eng _ st1 hok
  | true =>
    have ht : screenshotTasks indefinite eng html options =
        [emulateViewport eng (screenshotOptions indefinite options).width
          (screenshotOptions indefinite options).height,
          navigate eng "about:blank", setContent eng html] ++ [fullScreenshot eng 100] := by
      simp [screenshotTasks, hfp]
    rw [ht] at h ⊢
    obtain ⟨st1, hst1, hok⟩ := runTasks_last_ok (callCtx w) _ _ _ h
    rw [hst1]
    simpa using fullScreenshot_ok eng 100 _ st1 hok

/-- C9: if the `chromedp.Run` call of `htmlToPDF` fails with `e`, `htmlToPDF` returns nil
bytes and an error that wraps `e` and whose message is `failed to generate PDF: `
followed by the message of `e`; if it succeeds, `htmlToPDF` returns a nil error and
the buffer, which is what the print request of the engine answered.  The same holds
of `htmlToScreenshot` with `failed to capture screenshot: `.  When the renderer
returns an error, the handler answers 500 with that message as `error` field and no
artifact bytes; when it returns none, the handler answers 200 with the bytes. -/
theorem failed_render_returns_no_artifact {σ : Type} (dflt : PrintToPDFParams)
    (indefinite : Float64 → Int) (eng : Engine σ) (html : String) (options : OptionsMap)
    (w : World σ) :
    (∀ e, (pdfRun dflt eng html options w).1 = some e →
      (htmlToPDF dflt eng html options w).1 =
        ([], some (errorfW "failed to generate PDF: " e)) ∧
      (errorfW "failed to generate PDF: " e).message =
        "failed to generate PDF: " ++ e.message ∧
      (errorfW "failed to generate PDF: " e).unwrap = some e) ∧
    ((pdfRun dflt eng html options w).1 = none →
      (htmlToPDF dflt eng html options w).1 = ((pdfRun dflt eng html options w).2.2, none) ∧
      ∃ s, (eng.printToPDF (buildPrintParams dflt options) s).1 =
        Except.ok (pdfRun dflt eng html options w).2.2) ∧
    (∀ e, (screenshotRun indefinite eng html options w).1 = some e →
      (htmlToScreenshot indefinite eng html options w).1 =
        ([], some (errorfW "failed to capture screenshot: " e)) ∧
      (errorfW "failed to capture screenshot: " e).message =
        "failed to capture screenshot: " ++ e.message ∧
      (errorfW "failed to capture screenshot: " e).unwrap = some e) ∧
    ((screenshotRun indefinite eng html options w).1 = none →
      (htmlToScreenshot indefinite eng html options w).1 =
        ((screenshotRun indefinite eng html options w).2.2, none) ∧
      ∃ s, (if (screenshotOptions indefinite options).fullPage then eng.fullScreenshot 100 s
          else eng.captureScreenshot s).1 =
        Except.ok (screenshotRun indefinite eng html options w).2.2) ∧
    (∀ err, (htmlToPDF dflt eng html options w).1.2 = some err →
      handlePrint dflt eng (Except.ok { HTML := html, Options := options }) w =
        (if html = "" then
          (Response.json 400 [("error", (requiredError "PrintRequest" "HTML").message)], w)
        else (Response.json 500 [("error", err.message)],
          (htmlToPDF dflt eng html options w).2)) ∧
      handlePrintPDFA dflt eng (Except.ok { HTML := html, Options := options }) w =
        (if html = "" then
          (Response.json 400 [("error", (requiredError "PrintRequest" "HTML").message)], w)
        else (Response.json 500 [("error", err.message)],
          (htmlToPDF dflt eng html options w).2)) ∧
      (handlePrint dflt eng (Except.ok { HTML := html, Options := options }) w).1.artifact =
        none ∧
      (handlePrintPDFA dflt eng (Except.ok { HTML := html, Options := options })
        w).1.artifact = none) ∧
    (∀ err, (htmlToScreenshot indefinite eng html options w).1.2 = some err →
      handleScreenshot indefinite eng (Except.ok { HTML := html, Options := options }) w =
        (if html = "" then
          (Response.json 400 [("error", (requiredError "ScreenshotRequest" "HTML").message)], w)
        else (Response.json 500 [("error", err.message)],
          (htmlToScreenshot indefinite eng html options w).2)) ∧
      (handleScreenshot indefinite eng (Except.ok { HTML := html, Options := options })
        w).1.artifact = none) ∧
    (html ≠ "" → (htmlToPDF dflt eng html options w).1.2 = none →
      handlePrint dflt eng (Except.ok { HTML := html, Options := options }) w =
        (Response.data 200 "application/pdf" (htmlToPDF dflt eng html options w).1.1,
          (htmlToPDF dflt eng html options w).2)) ∧
    (html ≠ "" → (htmlToScreenshot indefinite eng html options w).1.2 = none →
      handleScreenshot indefinite eng (Except.ok { HTML := html, Options := options }) w =
        (Response.data 200 "image/png" (htmlToScreenshot indefinite eng html options w).1.1,
          (htmlToScreenshot indefinite eng html options w).2)) := by
  refine ⟨?_, ?_, ?_, ?_, ?_, ?_, ?_, ?_⟩
  · intro e h
    rw [htmlToPDF_eq]
    exact ⟨finish_of_error _ _ _ e h, rfl, rfl⟩
  · intro h
    rw [htmlToPDF_eq]
    exact ⟨finish_of_ok _ _ _ h, pdfRun_ok_buffer dflt eng html options w h⟩
  · intro e h
    rw [htmlToScreenshot_eq]
    exact ⟨finish_of_error _ _ _ e h, rfl, rfl⟩
  · intro h
    rw [htmlToScreenshot_eq]
    exact ⟨finish_of_ok _ _ _ h, screenshotRun_ok_buffer indefinite eng html options w h⟩
  · intro err h
    rcases hr : htmlToPDF dflt eng html options w with ⟨⟨bytes, oerr⟩, w1⟩
    rw [hr] at h
    simp only at h
    subst h
    by_cases hh : html = "" <;>
      simp [handlePrint, handlePrintPDFA, shouldBindJSON, hh, hr, Response.artifact]
  · intro err h
    rcases hr : htmlToScreenshot indefinite eng html options w with ⟨⟨bytes, oerr⟩, w1⟩
    rw [hr] at h
    simp only at h
    subst h
    by_cases hh : html = "" <;>
      simp [handleScreenshot, shouldBindJSON, hh, hr, Response.artifact]
  · intro hh h
    rcases hr : htmlToPDF dflt eng html options w with ⟨⟨bytes, oerr⟩, w1⟩
    rw [hr] at h
    simp only at h
    subst h
    simp [handlePrint, shouldBindJSON, hh, hr]
  · intro hh h
    rcases hr : htmlToScreenshot indefinite eng html options w with ⟨⟨bytes, oerr⟩, w1⟩
    rw [hr] at h
    simp only at h
    subst h
    simp [handleScreenshot, shouldBindJSON, hh, hr]

/-- C2, on the example of the claim: `scale` bound to the string `big` leaves the
default scale, the parameters are those of the options without `scale`, and with an
engine that answers, `htmlToPDF` returns the PDF and no error. -/
theorem mistyped_option_ignored_witness :
    ((buildPrintParams zeroPrintToPDFParams (some [("scale", Dyn.str "big")])).scale =
        zeroPrintToPDFParams.scale ∧
      buildPrintParams zeroPrintToPDFParams (some [("scale", Dyn.str "big")]) =
        buildPrintParams zeroPrintToPDFParams
          (OptionsMap.delete (some [("scale", Dyn.str "big")]) "scale")) ∧
    (htmlToPDF zeroPrintToPDFParams okEngine "<p>" (some [("scale", Dyn.str "big")])
      World.initial).1 = ([37, 80, 68, 70], none) :=
  ⟨(mistyped_option_ignored zeroPrintToPDFParams okEngine "<p>"
      (some [("scale", Dyn.str "big")]) World.initial).2.2.2.2.1 (Dyn.str "big")
      (by rfl) (by rfl),
   by rfl⟩

/-- C9, on an example: a print request that fails with `boom` makes `htmlToPDF` return
no bytes and the wrapped error, and `handlePrint` answer 500 without artifact. -/
theorem failed_render_returns_no_artifact_witness :
    ((htmlToPDF zeroPrintToPDFParams (renderFailEngine (GoError.plain "boom")) "<p>" none
        World.initial).1 =
        ([], some (errorfW "failed to generate PDF: " (GoError.plain "boom"))) ∧
      (errorfW "failed to generate PDF: " (GoError.plain "boom")).message =
        "failed to generate PDF: " ++ (GoError.plain "boom").message ∧
      (errorfW "failed to generate PDF: " (GoError.plain "boom")).unwrap =
        some (GoError.plain "boom")) ∧
    (handlePrint zeroPrintToPDFParams (renderFailEngine (GoError.plain "boom"))
      (Except.ok { HTML := "<p>", Options := none }) World.initial).1 =
      Response.json 500 [("error", "failed to generate PDF: boom")] :=
  ⟨(failed_render_returns_no_artifact zeroPrintToPDFParams amd64Indefinite
      (renderFailEngine (GoError.plain "boom")) "<p>" none World.initial).1
      (GoError.plain "boom") (by rfl),
   by rfl⟩

theorem runTasks_head_log {σ : Type} (P : Op → Prop) (ctx : Ctx) (a : Action σ)
    (rest : List (Action σ)) (st : World σ × Bytes) (ev : Event)
    (hrest : ∀ b ∈ rest, Emits P b) (ha : (a ctx st).2.1.log = st.1.log ++ [ev]) :
    ∃ t, (runTasks ctx (a :: rest) st).2.1.log = st.1.log ++ ev :: t := by
  simp only [runTasks]
  rcases hr : a ctx st with ⟨r, st1⟩
  rw [hr] at ha
  simp only at ha
  cases r with
  | some err => exact ⟨[], by simpa using ha⟩
  | none =>
    obtain ⟨ops, _, hlog, _⟩ := runTasks_emits P rest hrest ctx st1
    refine ⟨ops.map (Event.ran ctx.session), ?_⟩
    simp only at hlog ⊢
    rw [hlog, ha]
    simp

theorem mem_drop_of_append {α : Type} (l t L : List α) (x : α) (hL : L = l ++ t)
    (hx : x ∈ t) : x ∈ L.drop l.length := by
  rw [hL, List.drop_left]
  exact hx

theorem emulateViewport_reached {σ : Type} (indefinite : Float64 → Int) (eng : Engine σ)
    (html : String) (options : OptionsMap) (w : World σ)
    (hs : (eng.start w.eng).1 = none) :
    Event.ran w.next (Op.emulateViewport (screenshotOptions indefinite options).width
        (screenshotOptions indefinite options).height) ∈
      (htmlToScreenshot indefinite eng html options w).2.log.drop w.log.length := by
  rcases hst : eng.start w.eng with ⟨r, s1⟩
  rw [hst] at hs
  simp only at hs
  subst hs
  have hrun : ∃ t, (screenshotRun indefinite eng html options w).2.1.log =
      (opened w).log ++ Event.ran w.next Op.start ::
        Event.ran w.next (Op.emulateViewport (screenshotOptions indefinite options).width
          (screenshotOptions indefinite options).height) :: t := by
    have hreq : request (callCtx w) Op.start eng.start (opened w) =
        (none, World.mk s1 (w.next + 1) ((opened w).log ++ [Event.ran w.next Op.start])) := by
      simp [request, opened, World.emit, hst, callCtx]
    unfold screenshotRun chromedpRun
    simp only [hreq]
    rw [screenshotTasks_eq]
    obtain ⟨t, ht⟩ := runTasks_head_log (ScreenshotOp indefinite html options) (callCtx w)
      (emulateViewport eng (screenshotOptions indefinite options).width
        (screenshotOptions indefinite options).height)
      ([navigate eng "about:blank", setContent eng html] ++
        [if (screenshotOptions indefinite options).fullPage then fullScreenshot eng 100
          else captureScreenshot eng])
      (World.mk s1 (w.next + 1) ((opened w).log ++ [Event.ran w.next Op.start]), [])
      (Event.ran w.next (Op.emulateViewport (screenshotOptions indefinite options).width
        (screenshotOptions indefinite options).height))
      (by
        intro b hb
        apply screenshotTasks_emits indefinite eng html options
        rw [screenshotTasks_eq]
        exact List.mem_append_right _ hb)
      (by simp [emulateViewport, request, World.emit, callCtx])
    refine ⟨t, ?_⟩
    simp only [List.singleton_append] at ht ⊢
    rw [ht]
    simp
  obtain ⟨t, ht⟩ := hrun
  apply mem_drop_of_append w.log
    (Event.created w.next :: Event.deadlineSet w.next 30 :: Event.ran w.next Op.start ::
      Event.ran w.next (Op.emulateViewport (screenshotOptions indefinite options).width
        (screenshotOptions indefinite options).height) :: t ++
      [Event.timeoutCancelled w.next, Event.released w.next])
  · rw [htmlToScreenshot_eq, (finish_record _ _ _).1, ht]
    simp [opened]
  · simp

theorem printToPDF_reached {σ : Type} (dflt : PrintToPDFParams) (eng : Engine σ)
    (html : String) (options : OptionsMap) (w : World σ) (s1 s2 s3 s4 : σ) (frameID : String)
    (h1 : eng.start w.eng = (none, s1)) (h2 : eng.navigate "about:blank" s1 = (none, s2))
    (h3 : eng.getFrameTree s2 = (Except.ok frameID, s3))
    (h4 : eng.setDocumentContent frameID html s3 = (none, s4)) :
    Event.ran w.next (Op.printToPDF (buildPrintParams dflt options)) ∈
        (htmlToPDF dflt eng html options w).2.log.drop w.log.length ∧
      (htmlToPDF dflt eng html options w).1 =
        (match (eng.printToPDF (buildPrintParams dflt options) s4).1 with
          | Except.ok buf => (buf, none)
          | Except.error e => ([], some (errorfW "failed to generate PDF: " e))) := by
  rcases h5 : eng.printToPDF (buildPrintParams dflt options) s4 with ⟨r, s5⟩
  cases r <;>
    simp [htmlToPDF, newContext, withTimeout, chromedpRun, runTasks, request, navigate,
      setContent, printAction, runDefers, World.emit, h1, h2, h3, h4, h5]

/-- C1: in `htmlToPDF`, the parameters of every print request sent to the engine are the
ones built from the options, and that request is sent, its answer deciding what
`htmlToPDF` returns, whenever the session starts and content injection succeeds; a
recognised key bound to a value of its expected dynamic type is copied unchanged into
its field of these parameters, and the field of an absent key keeps the value it has in
`page.PrintToPDF()`. -/
theorem print_options_copied {σ : Type} (dflt : PrintToPDFParams) (eng : Engine σ)
    (html : String) (options : OptionsMap) (w : World σ) :
    (∀ s q, Event.ran s (Op.printToPDF q) ∈
        (htmlToPDF dflt eng html options w).2.log.drop w.log.length →
      q = buildPrintParams dflt options) ∧
    (∀ (s1 s2 s3 s4 : σ) (frameID : String),
      eng.start w.eng = (none, s1) → eng.navigate "about:blank" s1 = (none, s2) →
      eng.getFrameTree s2 = (Except.ok frameID, s3) →
      eng.setDocumentContent frameID html s3 = (none, s4) →
      Event.ran w.next (Op.printToPDF (buildPrintParams dflt options)) ∈
          (htmlToPDF dflt eng html options w).2.log.drop w.log.length ∧
        (htmlToPDF dflt eng html options w).1 =
          (match (eng.printToPDF (buildPrintParams dflt options) s4).1 with
            | Except.ok buf => (buf, none)
            | Except.error e => ([], some (errorfW "failed to generate PDF: " e)))) ∧
    (∀ v, options.get? "landscape" = some (Dyn.bool v) →
      (buildPrintParams dflt options).landscape = v) ∧
    (options.get? "landscape" = none →
      (buildPrintParams dflt options).landscape = dflt.landscape) ∧
    (∀ v, options.get? "display_header_footer" = some (Dyn.bool v) →
      (buildPrintParams dflt options).displayHeaderFooter = v) ∧
    (options.get? "display_header_footer" = none →
      (buildPrintParams dflt options).displayHeaderFooter = dflt.displayHeaderFooter) ∧
    (∀ v, options.get? "print_background" = some (Dyn.bool v) →
      (buildPrintParams dflt options).printBackground = v) ∧
    (options.get? "print_background" = none →
      (buildPrintParams dflt options).printBackground = dflt.printBackground) ∧
    (∀ v, options.get? "scale" = some (Dyn.num v) →
      (buildPrintParams dflt options).scale = v) ∧
    (options.get? "scale" = none →
      (buildPrintParams dflt options).scale = dflt.scale) ∧
    (∀ v, options.get? "paper_width" = some (Dyn.num v) →
      (buildPrintParams dflt options).paperWidth = v) ∧
    (options.get? "paper_width" = none →
      (buildPrintParams dflt options).paperWidth = dflt.paperWidth) ∧
    (∀ v, options.get? "paper_height" = some (Dyn.num v) →
      (buildPrintParams dflt options).paperHeight = v) ∧
    (options.get? "paper_height" = none →
      (buildPrintParams dflt options).paperHeight = dflt.paperHeight) ∧
    (∀ v, options.get? "margin_top" = some (Dyn.num v) →
      (buildPrintParams dflt options).marginTop = v) ∧
    (options.get? "margin_top" = none →
      (buildPrintParams dflt options).marginTop = dflt.marginTop) ∧
    (∀ v, options.get? "margin_bottom" = some (Dyn.num v) →
      (buildPrintParams dflt options).marginBottom = v) ∧
    (options.get? "margin_bottom" = none →
      (buildPrintParams dflt options).marginBottom = dflt.marginBottom) ∧
    (∀ v, options.get? "margin_left" = some (Dyn.num v) →
      (buildPrintParams dflt options).marginLeft = v) ∧
    (options.get? "margin_left" = none →
      (buildPrintParams dflt options).marginLeft = dflt.marginLeft) ∧
    (∀ v, options.get? "margin_right" = some (Dyn.num v) →
      (buildPrintParams dflt options).marginRight = v) ∧
    (options.get? "margin_right" = none →
      (buildPrintParams dflt options).marginRight = dflt.marginRight) ∧
    (∀ v, options.get? "page_ranges" = some (Dyn.str v) →
      (buildPrintParams dflt options).pageRanges = v) ∧
    (options.get? "page_ranges" = none →
      (buildPrintParams dflt options).pageRanges = dflt.pageRanges) := by
  refine ⟨fun s q h => printToPDF_sent dflt eng html options w s q h,
    fun s1 s2 s3 s4 frameID h1 h2 h3 h4 =>
      printToPDF_reached dflt eng html options w s1 s2 s3 s4 frameID h1 h2 h3 h4, ?_⟩
  cases options with
  | none => simp [OptionsMap.get?, buildPrintParams_nil]
  | some m =>
    rw [buildPrintParams_some]
    simp only [OptionsMap.get?]
    refine ⟨?_, ?_, ?_, ?_, ?_, ?_, ?_, ?_, ?_, ?_, ?_, ?_, ?_, ?_, ?_, ?_, ?_, ?_, ?_, ?_,
      ?_, ?_⟩ <;>
      first
        | (intro v h
           simp [GoMap.index, h, Dyn.asBool, Dyn.asFloat64, Dyn.asString])
        | (intro h
           simp [GoMap.index, h, Dyn.asBool, Dyn.asFloat64, Dyn.asString])

/-- C1, on the example of the test: with `landscape: true, scale: 1.5` and an engine
that answers, `htmlToPDF` sends the print request with `Landscape = true`,
`Scale = 1.5` and every other field at its default, and returns the answer of the
engine to it. -/
theorem print_options_copied_witness :
    (Event.ran 0 (Op.printToPDF
        { zeroPrintToPDFParams with landscape := true, scale := Float64.finite false 3 (-1) }) ∈
        (htmlToPDF zeroPrintToPDFParams okEngine "<p>"
          (some [("landscape", Dyn.bool true), ("scale", Dyn.num (Float64.finite false 3 (-1)))])
          World.initial).2.log.drop World.initial.log.length ∧
      (htmlToPDF zeroPrintToPDFParams okEngine "<p>"
        (some [("landscape", Dyn.bool true), ("scale", Dyn.num (Float64.finite false 3 (-1)))])
        World.initial).1 = ([37, 80, 68, 70], none)) ∧
    (buildPrintParams zeroPrintToPDFParams
      (some [("landscape", Dyn.bool true),
        ("scale", Dyn.num (Float64.finite false 3 (-1)))])).landscape = true ∧
    (buildPrintParams zeroPrintToPDFParams
      (some [("landscape", Dyn.bool true),
        ("scale", Dyn.num (Float64.finite false 3 (-1)))])).scale = Float64.finite false 3 (-1) ∧
    (buildPrintParams zeroPrintToPDFParams
      (some [("landscape", Dyn.bool true),
        ("scale", Dyn.num (Float64.finite false 3 (-1)))])).paperWidth =
      zeroPrintToPDFParams.paperWidth :=
  ⟨(print_options_copied zeroPrintToPDFParams okEngine "<p>"
      (some [("landscape", Dyn.bool true), ("scale", Dyn.num (Float64.finite false 3 (-1)))])
      World.initial).2.1 () () () () "F" rfl rfl rfl rfl,
   (print_options_copied zeroPrintToPDFParams okEngine "<p>"
      (some [("landscape", Dyn.bool true), ("scale", Dyn.num (Float64.finite false 3 (-1)))])
      World.initial).2.2.1 true (by rfl),
   (print_options_copied zeroPrintToPDFParams okEngine "<p>"
      (some [("landscape", Dyn.bool true), ("scale", Dyn.num (Float64.finite false 3 (-1)))])
      World.initial).2.2.2.2.2.2.2.2.1 (Float64.finite false 3 (-1)) (by rfl),
   (print_options_copied zeroPrintToPDFParams okEngine "<p>"
      (some [("landscape", Dyn.bool true), ("scale", Dyn.num (Float64.finite false 3 (-1)))])
      World.initial).2.2.2.2.2.2.2.2.2.2.2.1 (by rfl)⟩

/-- C4, amended: when `width` (respectively `height`) is bound to a finite float64 of
value `q` whose rounding toward zero lies in `[-2^63, 2^63)`, the `int64` width
(height) is `q` rounded toward zero; `htmlToScreenshot` sends the viewport emulation
request with that width (height) whenever the session starts, and every viewport
emulation request it sends has the computed width and height. -/
theorem screenshot_size_truncated {σ : Type} (indefinite : Float64 → Int)
    (options : OptionsMap) (f : Float64) (q : ℚ) (hq : f.toRat? = some q)
    (hr : -(2 : Int) ^ 63 ≤ roundTowardZero q ∧ roundTowardZero q < (2 : Int) ^ 63) :
    (options.get? "width" = some (Dyn.num f) →
      (screenshotOptions indefinite options).width = roundTowardZero q) ∧
    (options.get? "height" = some (Dyn.num f) →
      (screenshotOptions indefinite options).height = roundTowardZero q) ∧
    (options.get? "width" = some (Dyn.num f) →
      ∀ (eng : Engine σ) (html : String) (w : World σ), (eng.start w.eng).1 = none →
      Event.ran w.next (Op.emulateViewport (roundTowardZero q)
          (screenshotOptions indefinite options).height) ∈
        (htmlToScreenshot indefinite eng html options w).2.log.drop w.log.length) ∧
    (options.get? "height" = some (Dyn.num f) →
      ∀ (eng : Engine σ) (html : String) (w : World σ), (eng.start w.eng).1 = none →
      Event.ran w.next (Op.emulateViewport (screenshotOptions indefinite options).width
          (roundTowardZero q)) ∈
        (htmlToScreenshot indefinite eng html options w).2.log.drop w.log.length) ∧
    (∀ (eng : Engine σ) (html : String) (w : World σ) (s : Nat) (a b : Int),
      Event.ran s (Op.emulateViewport a b) ∈
        (htmlToScreenshot indefinite eng html options w).2.log.drop w.log.length →
      a = (screenshotOptions indefinite options).width ∧
        b = (screenshotOptions indefinite options).height) := by
  have hw : options.get? "width" = some (Dyn.num f) →
      (screenshotOptions indefinite options).width = roundTowardZero q := by
    intro h
    cases options with
    | none => simp [OptionsMap.get?] at h
    | some m =>
      simp only [OptionsMap.get?] at h
      simp only [screenshotOptions, GoMap.index, h, Dyn.asFloat64]
      exact int64OfFloat64_inRange indefinite f q hq hr
  have hh : options.get? "height" = some (Dyn.num f) →
      (screenshotOptions indefinite options).height = roundTowardZero q := by
    intro h
    cases options with
    | none => simp [OptionsMap.get?] at h
    | some m =>
      simp only [OptionsMap.get?] at h
      simp only [screenshotOptions, GoMap.index, h, Dyn.asFloat64]
      exact int64OfFloat64_inRange indefinite f q hq hr
  refine ⟨hw, hh, ?_, ?_, fun eng html w s a b h =>
    emulateViewport_sent indefinite eng html options w s a b h⟩
  · intro h eng html w hs
    rw [← hw h]
    exact emulateViewport_reached indefinite eng html options w hs
  · intro h eng html w hs
    rw [← hh h]
    exact emulateViewport_reached indefinite eng html options w hs

/-- C4, amended, on the examples of the claim: with the float64 nearest to 1280.9 as
width, the width is 1280 and `htmlToScreenshot` sends the viewport emulation request
1280 by 720; with the float64 nearest to -3.7 as height, the height is -3 and the
request is 1280 by -3. -/
theorem screenshot_size_truncated_witness :
    ((screenshotOptions amd64Indefinite
        (some [("width", Dyn.num (Float64.finite false 2816728888036557 (-41)))])).width = 1280 ∧
      Event.ran 0 (Op.emulateViewport 1280 720) ∈
        (htmlToScreenshot amd64Indefinite okEngine "<p>"
          (some [("width", Dyn.num (Float64.finite false 2816728888036557 (-41)))])
          World.initial).2.log.drop World.initial.log.length) ∧
    ((screenshotOptions amd64Indefinite
        (some [("height", Dyn.num (Float64.finite true 4165829655317709 (-50)))])).height = -3 ∧
      Event.ran 0 (Op.emulateViewport 1280 (-3)) ∈
        (htmlToScreenshot amd64Indefinite okEngine "<p>"
          (some [("height", Dyn.num (Float64.finite true 4165829655317709 (-50)))])
          World.initial).2.log.drop World.initial.log.length) := by
  have h1 := @screenshot_size_truncated Unit amd64Indefinite
    (some [("width", Dyn.num (Float64.finite false 2816728888036557 (-41)))])
    (Float64.finite false 2816728888036557 (-41))
    (finiteValue false 2816728888036557 (-41)) rfl
    (by rw [roundTowardZero_finite]; decide)
  have h2 := @screenshot_size_truncated Unit amd64Indefinite
    (some [("height", Dyn.num (Float64.finite true 4165829655317709 (-50)))])
    (Float64.finite true 4165829655317709 (-50))
    (finiteValue true 4165829655317709 (-50)) rfl
    (by rw [roundTowardZero_finite]; decide)
  have e1 : roundTowardZero (finiteValue false 2816728888036557 (-41)) = 1280 := by
    rw [roundTowardZero_finite]; decide
  have e2 : roundTowardZero (finiteValue true 4165829655317709 (-50)) = -3 := by
    rw [roundTowardZero_finite]; decide
  refine ⟨⟨(h1.1 rfl).trans e1, ?_⟩, ⟨(h2.2.1 rfl).trans e2, ?_⟩⟩
  · have h := h1.2.2.1 rfl okEngine "<p>" World.initial rfl
    rw [e1] at h
    exact h
  · have h := h2.2.2.2.1 rfl okEngine "<p>" World.initial rfl
    rw [e2] at h
    exact h

end ChromeService
